import Mathlib

/-!
# A verification development for `GetTopTrackInfo` (src/main.go)

The repository is one HTTP handler.  It performs three sequential outbound
GET requests (top track of a region, lyrics, artist info), decodes each JSON
body into an anonymous Go struct and writes a composed `TrackInfo`.

The embedding follows `src/main.go` statement by statement:

* the outcome of each outbound request (`gorequest ... End()`) is an input;
* the response writer is explicit state, and a run records the URLs it
  requested and whether it ended in a run-time panic;
* the library calls the handler makes (`json.Unmarshal`,
  `json.NewEncoder(w).Encode`, `fmt.Sprintf`, `http.Error`, `mux.Vars`,
  `os.Getenv`) have executable models of the documented behaviour the handler
  relies on; the wording of the decode errors is a parameter.

Bodies are texts, that is sequences of Unicode characters: a body that is
not valid UTF-8 has no counterpart here.
-/

namespace TrackInfoAggregator

/-! ## JSON text (the grammar accepted by `encoding/json`) -/

/-- JSON syntax tree.  Object members are kept in source order and with
their duplicates, because `json.Unmarshal` visits them one by one. -/
inductive Json where
  | null
  | bool (b : Bool)
  | num (lit : List Char)
  | str (s : String)
  | arr (xs : List Json)
  | obj (kvs : List (String × Json))

/-- The deepest nesting of arrays and objects `encoding/json` accepts
(`maxNestingDepth` in scanner.go). -/
def maxNestingDepth : Nat := 10000

/-- The four white-space characters of the JSON scanner. -/
def isSpace (c : Char) : Bool :=
  c == ' ' || c == '\t' || c == '\r' || c == '\n'

/-- Drop leading JSON white space. -/
def skipSpace : List Char → List Char
  | [] => []
  | c :: cs => if isSpace c then skipSpace cs else c :: cs

/-- Value of a hexadecimal digit, either case. -/
def hexVal (c : Char) : Option Nat :=
  if '0' ≤ c ∧ c ≤ '9' then some (c.toNat - '0'.toNat)
  else if 'a' ≤ c ∧ c ≤ 'f' then some (c.toNat - 'a'.toNat + 10)
  else if 'A' ≤ c ∧ c ≤ 'F' then some (c.toNat - 'A'.toNat + 10)
  else none

/-- The four hexadecimal digits after a `\u` (`getu4` in decode.go). -/
def getu4 : List Char → Option (Nat × List Char)
  | a :: b :: c :: d :: rest =>
    match hexVal a, hexVal b, hexVal c, hexVal d with
    | some x, some y, some z, some w => some (((x * 16 + y) * 16 + z) * 16 + w, rest)
    | _, _, _, _ => none
  | _ => none

/-- The Unicode replacement character U+FFFD. -/
def replacementChar : Char := Char.ofNat 0xFFFD

/-- The character of a `\u` escape whose code unit is `hi`, given the text
that follows it: a high surrogate directly followed by the escape of a low
surrogate combines with it (and consumes it), a lone surrogate becomes
U+FFFD, any other code unit is the character itself (`unquoteBytes`). -/
def unicodeEscape (hi : Nat) (rest : List Char) : Char × List Char :=
  if 0xD800 ≤ hi ∧ hi < 0xE000 then
    if rest.take 2 = ['\\', 'u'] then
      match getu4 (rest.drop 2) with
      | some (lo, rest3) =>
        if hi < 0xDC00 ∧ 0xDC00 ≤ lo ∧ lo < 0xE000 then
          (Char.ofNat ((hi - 0xD800) * 1024 + (lo - 0xDC00) + 0x10000), rest3)
        else (replacementChar, rest)
      | none => (replacementChar, rest)
    else (replacementChar, rest)
  else (Char.ofNat hi, rest)

/-- The character a one-letter escape stands for. -/
def unescape (c : Char) : Option Char :=
  if c = '"' then some '"'
  else if c = '\\' then some '\\'
  else if c = '/' then some '/'
  else if c = 'b' then some (Char.ofNat 8)
  else if c = 'f' then some (Char.ofNat 12)
  else if c = 'n' then some '\n'
  else if c = 'r' then some '\r'
  else if c = 't' then some '\t'
  else none

/-- Scan and unquote a string literal whose opening quote has been read.
`acc` holds the characters decoded so far, newest first.  Control
characters below U+0020 and unknown escapes are rejected. -/
def parseString : Nat → List Char → List Char → Option (String × List Char)
  | 0, _, _ => none
  | fuel + 1, cs, acc =>
    match cs with
    | [] => none
    | c :: rest =>
      if c = '"' then some (String.mk acc.reverse, rest)
      else if c = '\\' then
        match rest with
        | [] => none
        | e :: r =>
          if e = 'u' then
            match getu4 r with
            | some (hi, r2) =>
              parseString fuel (unicodeEscape hi r2).2 ((unicodeEscape hi r2).1 :: acc)
            | none => none
          else
            match unescape e with
            | some x => parseString fuel r (x :: acc)
            | none => none
      else if c.toNat < 0x20 then none
      else parseString fuel rest (c :: acc)

/-- Split off the longest run of decimal digits. -/
def takeDigits : List Char → List Char × List Char
  | [] => ([], [])
  | c :: cs =>
    if c.isDigit then ((takeDigits cs).1.cons c, (takeDigits cs).2) else ([], c :: cs)

/-- Integer part of a number: `0`, or a non-zero digit and more digits. -/
def parseInt : List Char → Option (List Char × List Char)
  | [] => none
  | c :: cs =>
    if c == '0' then some ([c], cs)
    else if c.isDigit then some (c :: (takeDigits cs).1, (takeDigits cs).2)
    else none

/-- Optional fraction: a dot and at least one digit. -/
def parseFrac : List Char → Option (List Char × List Char)
  | '.' :: cs =>
    match takeDigits cs with
    | ([], _) => none
    | (ds, rest) => some ('.' :: ds, rest)
  | cs => some ([], cs)

/-- Optional exponent: `e` or `E`, an optional sign, at least one digit. -/
def parseExp : List Char → Option (List Char × List Char)
  | [] => some ([], [])
  | c :: cs =>
    if c == 'e' || c == 'E' then
      match cs with
      | [] => none
      | s :: cs2 =>
        if s == '+' || s == '-' then
          match takeDigits cs2 with
          | ([], _) => none
          | (ds, rest) => some (c :: s :: ds, rest)
        else
          match takeDigits (s :: cs2) with
          | ([], _) => none
          | (ds, rest) => some (c :: ds, rest)
    else some ([], c :: cs)

/-- A number literal (after an optional minus sign has been split off by
the caller): integer part, optional fraction, optional exponent. -/
def parseNumber (cs : List Char) : Option (List Char × List Char) :=
  match parseInt cs with
  | none => none
  | some (i, r1) =>
    match parseFrac r1 with
    | none => none
    | some (f, r2) =>
      match parseExp r2 with
      | none => none
      | some (e, r3) => some (i ++ f ++ e, r3)

/-- One of the literals `true`, `false`, `null` at the head of the text. -/
def parseLiteral (cs : List Char) : Option (Json × List Char) :=
  if cs.take 4 = ['t', 'r', 'u', 'e'] then some (Json.bool true, cs.drop 4)
  else if cs.take 5 = ['f', 'a', 'l', 's', 'e'] then some (Json.bool false, cs.drop 5)
  else if cs.take 4 = ['n', 'u', 'l', 'l'] then some (Json.null, cs.drop 4)
  else none

mutual
/-- One JSON value at the head of the text (leading white space already
skipped) and the text after it.  `depth` counts the arrays and objects that
are open around the value. -/
def parseValue : Nat → Nat → List Char → Option (Json × List Char)
  | 0, _, _ => none
  | fuel + 1, depth, cs =>
    match cs with
    | [] => none
    | c :: rest =>
      if c = '\x7b' then
        if depth + 1 ≤ maxNestingDepth then
          match skipSpace rest with
          | [] => none
          | c2 :: rest2 =>
            if c2 = '\x7d' then some (Json.obj [], rest2)
            else (parseMembers fuel (depth + 1) (c2 :: rest2)).map (fun p => (Json.obj p.1, p.2))
        else none
      else if c = '[' then
        if depth + 1 ≤ maxNestingDepth then
          match skipSpace rest with
          | [] => none
          | c2 :: rest2 =>
            if c2 = ']' then some (Json.arr [], rest2)
            else (parseElements fuel (depth + 1) (c2 :: rest2)).map (fun p => (Json.arr p.1, p.2))
        else none
      else if c = '"' then
        (parseString (rest.length + 1) rest []).map (fun p => (Json.str p.1, p.2))
      else if c = '-' then (parseNumber rest).map (fun p => (Json.num ('-' :: p.1), p.2))
      else
        match parseLiteral (c :: rest) with
        | some p => some p
        | none => (parseNumber (c :: rest)).map (fun p => (Json.num p.1, p.2))
/-- The elements of a non-empty array up to and including the closing
bracket; the text starts at the first character of an element. -/
def parseElements : Nat → Nat → List Char → Option (List Json × List Char)
  | 0, _, _ => none
  | fuel + 1, depth, cs =>
    match parseValue fuel depth cs with
    | none => none
    | some (v, rest) =>
      match skipSpace rest with
      | [] => none
      | c :: rest2 =>
        if c = ',' then
          (parseElements fuel depth (skipSpace rest2)).map (fun p => (v :: p.1, p.2))
        else if c = ']' then some ([v], rest2)
        else none
/-- The members of a non-empty object up to and including the closing
brace; the text starts at the opening quote of a key. -/
def parseMembers : Nat → Nat → List Char → Option (List (String × Json) × List Char)
  | 0, _, _ => none
  | fuel + 1, depth, cs =>
    match cs with
    | [] => none
    | q :: rest =>
      if q = '"' then
        match parseString (rest.length + 1) rest [] with
        | none => none
        | some (key, rest2) =>
          match skipSpace rest2 with
          | [] => none
          | c :: rest3 =>
            if c = ':' then
              match parseValue fuel depth (skipSpace rest3) with
              | none => none
              | some (v, rest4) =>
                match skipSpace rest4 with
                | [] => none
                | c2 :: rest5 =>
                  if c2 = ',' then
                    (parseMembers fuel depth (skipSpace rest5)).map
                      (fun p => ((key, v) :: p.1, p.2))
                  else if c2 = '\x7d' then some ([(key, v)], rest5)
                  else none
            else none
      else none
end

/-- The syntax tree of a whole body: optional white space, one value,
optional white space, end of input.  `none` is a syntax error
(`checkValid` fails and `json.Unmarshal` decodes nothing). -/
def parseJson (body : String) : Option Json :=
  match parseValue (2 * body.length + 2) 0 (skipSpace body.data) with
  | some (v, rest) => if skipSpace rest = [] then some v else none
  | none => none

/-! ## Decoding into Go values (`json.Unmarshal`)

`json.Unmarshal` first checks the whole text (`parseJson`) and then decodes
the value *into* the destination, which keeps what it already holds wherever
the text says nothing.  A JSON value of the wrong kind for its destination
records an `UnmarshalTypeError`; decoding goes on, but the call returns that
error, and the handler then discards the destination.  The decoders below
therefore stop at the first such mismatch and return `none`. -/

/-- Case folding of one character of a member name.  Go compares a member
name with a field name exactly and, failing that, under Unicode simple case
folding; every field name of this program is ASCII, and the only characters
outside ASCII that fold to an ASCII letter are U+017F (long s) and U+212A
(Kelvin sign). -/
def foldChar (c : Char) : Char :=
  if 'a' ≤ c ∧ c ≤ 'z' then Char.ofNat (c.toNat - 32)
  else if c = Char.ofNat 0x17F then 'S'
  else if c = Char.ofNat 0x212A then 'K'
  else c

/-- A name with every character folded. -/
def foldName (s : String) : List Char := s.data.map foldChar

/-- Position of the first name satisfying `p`. -/
def findName (p : String → Bool) : List String → Option Nat
  | [] => none
  | n :: ns => if p n then some 0 else (findName p ns).map (· + 1)

/-- The struct field a member name selects: the field of exactly that
name, else the first field equal to it under folding, else none (the
member is skipped). -/
def fieldIndex (names : List String) (key : String) : Option Nat :=
  match findName (fun n => n == key) names with
  | some i => some i
  | none => findName (fun n => foldName n == foldName key) names

/-- Decode a JSON value into a Go `string`: a string literal is stored,
`null` leaves the destination alone, anything else is a type mismatch. -/
def decodeString : Json → String → Option String
  | Json.str s, _ => some s
  | Json.null, cur => some cur
  | _, _ => none

/-- Decode the members of an object into a struct, in source order.
`setField i v cur` decodes `v` into field number `i` of `cur`. -/
def decodeMembers {σ : Type} (names : List String) (setField : Nat → Json → σ → Option σ) :
    List (String × Json) → σ → Option σ
  | [], cur => some cur
  | (key, v) :: rest, cur =>
    match fieldIndex names key with
    | some i =>
      match setField i v cur with
      | some next => decodeMembers names setField rest next
      | none => none
    | none => decodeMembers names setField rest cur

/-- Decode a JSON value into a struct: an object is decoded member by
member, `null` leaves the struct alone, anything else is a type mismatch. -/
def decodeStruct {σ : Type} (names : List String) (setField : Nat → Json → σ → Option σ) :
    Json → σ → Option σ
  | Json.obj kvs, cur => decodeMembers names setField kvs cur
  | Json.null, cur => some cur
  | _, _ => none

/-- A Go slice as the decoder sees it: the elements below its length and
the cells of its backing array past the length that still hold the values
an earlier, longer decode left there.  Cells further out are zero. -/
structure Slice (α : Type) where
  elems : List α
  spare : List α
  deriving DecidableEq

/-- The nil slice. -/
def Slice.empty {α : Type} : Slice α := ⟨[], []⟩

/-- Go `len(s)`. -/
def Slice.len {α : Type} (s : Slice α) : Nat := s.elems.length

/-- Go `s[i]`: `none` stands for the run-time panic "index out of range". -/
def Slice.index {α : Type} (s : Slice α) (i : Nat) : Option α := s.elems.get? i

/-- Decode array elements one by one, element `i` into cell `i` of the
backing array (a cell the array does not have starts as `zero`). -/
def decodeElems {α : Type} (zero : α) (dec : Json → α → Option α) :
    List Json → List α → Option (List α)
  | [], _ => some []
  | x :: xs, cells =>
    match dec x (cells.headD zero) with
    | none => none
    | some a => (decodeElems zero dec xs cells.tail).map (fun as => a :: as)

/-- Decode a JSON value into a slice.  An array is decoded element by
element into the existing cells and the slice is cut or extended to the
array length; an empty array gives a fresh empty slice; `null` gives the
nil slice; anything else is a type mismatch. -/
def decodeSlice {α : Type} (zero : α) (dec : Json → α → Option α) :
    Json → Slice α → Option (Slice α)
  | Json.arr [], _ => some ⟨[], []⟩
  | Json.arr (x :: xs), s =>
    (decodeElems zero dec (x :: xs) (s.elems ++ s.spare)).map
      (fun new => ⟨new, (s.elems ++ s.spare).drop (xs.length + 1)⟩)
  | Json.null, _ => some ⟨[], []⟩
  | _, _ => none

/-! ### The three destinations of `GetTopTrackInfo` -/

/-- Type `struct{ Name string }` of a track artist (src/main.go line 64);
the field has no tag, so its JSON name is `Name`. -/
structure TrackArtist where
  Name : String
  deriving DecidableEq

/-- Element type of `tracksResp.TopTracks.Track` (lines 62-65). -/
structure Track where
  Name : String
  Artist : TrackArtist
  deriving DecidableEq

/-- Type of `tracksResp.TopTracks` (lines 61-66). -/
structure TopTracksT where
  Track : Slice Track
  deriving DecidableEq

/-- Type of `tracksResp` (lines 60-67). -/
structure TracksResp where
  TopTracks : TopTracksT
  deriving DecidableEq

/-- Type of `lyricsResp.Message.Body.Lyrics` (lines 92-94). -/
structure LyricsT where
  LyricsBody : String
  deriving DecidableEq

/-- Type of `lyricsResp.Message.Body` (lines 91-95). -/
structure BodyT where
  Lyrics : LyricsT
  deriving DecidableEq

/-- Type of `lyricsResp.Message` (lines 90-96). -/
structure MessageT where
  Body : BodyT
  deriving DecidableEq

/-- Type of `lyricsResp` (lines 89-97). -/
structure LyricsResp where
  Message : MessageT
  deriving DecidableEq

/-- Element type of `artistResp.Artist.Image` (lines 115-117). -/
structure Image where
  URL : String
  deriving DecidableEq

/-- Type of `artistResp.Artist` (lines 113-118). -/
structure ArtistT where
  Name : String
  Image : Slice Image
  deriving DecidableEq

/-- Type of `artistResp` (lines 112-119). -/
structure ArtistResp where
  Artist : ArtistT
  deriving DecidableEq

/-- Zero value of a track. -/
def Track.zero : Track := ⟨"", ⟨""⟩⟩

/-- Zero value of `tracksResp`. -/
def TracksResp.zero : TracksResp := ⟨⟨Slice.empty⟩⟩

/-- Zero value of `lyricsResp`. -/
def LyricsResp.zero : LyricsResp := ⟨⟨⟨⟨""⟩⟩⟩⟩

/-- Zero value of an image entry. -/
def Image.zero : Image := ⟨""⟩

/-- Zero value of `artistResp`. -/
def ArtistResp.zero : ArtistResp := ⟨⟨"", Slice.empty⟩⟩

/-- Decoder of `struct{ Name string }`. -/
def TrackArtist.decode : Json → TrackArtist → Option TrackArtist :=
  decodeStruct ["Name"] (fun _ v cur => (decodeString v cur.Name).map (fun s => ⟨s⟩))

/-- Decoder of a track: fields `name` and `artist`. -/
def Track.decode : Json → Track → Option Track :=
  decodeStruct ["name", "artist"] (fun i v cur =>
    match i with
    | 0 => (decodeString v cur.Name).map (fun s => ⟨s, cur.Artist⟩)
    | _ => (TrackArtist.decode v cur.Artist).map (fun a => ⟨cur.Name, a⟩))

/-- Decoder of `tracksResp.TopTracks`: field `track`. -/
def TopTracksT.decode : Json → TopTracksT → Option TopTracksT :=
  decodeStruct ["track"] (fun _ v cur =>
    (decodeSlice Track.zero Track.decode v cur.Track).map (fun s => ⟨s⟩))

/-- Decoder of `tracksResp`: field `tracks`. -/
def TracksResp.decode : Json → TracksResp → Option TracksResp :=
  decodeStruct ["tracks"] (fun _ v cur => (TopTracksT.decode v cur.TopTracks).map (fun t => ⟨t⟩))

/-- Decoder of the innermost lyrics struct: field `lyrics_body`. -/
def LyricsT.decode : Json → LyricsT → Option LyricsT :=
  decodeStruct ["lyrics_body"] (fun _ v cur => (decodeString v cur.LyricsBody).map (fun s => ⟨s⟩))

/-- Decoder of `lyricsResp.Message.Body`: field `lyrics`. -/
def BodyT.decode : Json → BodyT → Option BodyT :=
  decodeStruct ["lyrics"] (fun _ v cur => (LyricsT.decode v cur.Lyrics).map (fun l => ⟨l⟩))

/-- Decoder of `lyricsResp.Message`: field `body`. -/
def MessageT.decode : Json → MessageT → Option MessageT :=
  decodeStruct ["body"] (fun _ v cur => (BodyT.decode v cur.Body).map (fun b => ⟨b⟩))

/-- Decoder of `lyricsResp`: field `message`. -/
def LyricsResp.decode : Json → LyricsResp → Option LyricsResp :=
  decodeStruct ["message"] (fun _ v cur => (MessageT.decode v cur.Message).map (fun m => ⟨m⟩))

/-- Decoder of an image entry: field `#text`. -/
def Image.decode : Json → Image → Option Image :=
  decodeStruct ["#text"] (fun _ v cur => (decodeString v cur.URL).map (fun s => ⟨s⟩))

/-- Decoder of `artistResp.Artist`: fields `name` and `image`. -/
def ArtistT.decode : Json → ArtistT → Option ArtistT :=
  decodeStruct ["name", "image"] (fun i v cur =>
    match i with
    | 0 => (decodeString v cur.Name).map (fun s => ⟨s, cur.Image⟩)
    | _ => (decodeSlice Image.zero Image.decode v cur.Image).map (fun s => ⟨cur.Name, s⟩))

/-- Decoder of `artistResp`: field `artist`. -/
def ArtistResp.decode : Json → ArtistResp → Option ArtistResp :=
  decodeStruct ["artist"] (fun _ v cur => (ArtistT.decode v cur.Artist).map (fun a => ⟨a⟩))

/-- Line 68: `json.Unmarshal([]byte(body), &tracksResp)` on the zero value;
`none` is a non-nil error. -/
def unmarshalTracks (body : String) : Option TracksResp :=
  match parseJson body with
  | none => none
  | some v => TracksResp.decode v TracksResp.zero

/-- Line 98: `json.Unmarshal([]byte(lyricsBody), &lyricsResp)`. -/
def unmarshalLyrics (body : String) : Option LyricsResp :=
  match parseJson body with
  | none => none
  | some v => LyricsResp.decode v LyricsResp.zero

/-- Line 120: `json.Unmarshal([]byte(artistBody), &artistResp)`. -/
def unmarshalArtist (body : String) : Option ArtistResp :=
  match parseJson body with
  | none => none
  | some v => ArtistResp.decode v ArtistResp.zero

/-! ## Encoding the result (`json.NewEncoder(w).Encode`) -/

/-- Result type `ArtistInfo` (src/main.go lines 15-18). -/
structure ArtistInfo where
  Name : String
  ImageURL : String
  deriving DecidableEq

/-- Result type `TrackInfo` (lines 20-24). -/
structure TrackInfo where
  Name : String
  Lyrics : String
  Artist : ArtistInfo
  deriving DecidableEq

/-- What the model takes from `encoding/json` without computing it.
`tracksErrorText body`, `lyricsErrorText body` and `artistErrorText body`
are the texts (`err.Error()`) of the errors `json.Unmarshal` returns for a
body it rejects at lines 68, 98 and 120; their wording is the library's.
`shortEscapes` tells whether the encoder writes backspace and form feed as
`\b` and `\f` (Go 1.22 and later) or as `\u0008` and `\u000c` (before). -/
structure JsonLib where
  tracksErrorText : String → String
  lyricsErrorText : String → String
  artistErrorText : String → String
  shortEscapes : Bool

/-- Lower-case hexadecimal digit. -/
def hexDigit (n : Nat) : Char := "0123456789abcdef".data.getD n '0'

/-- The encoding of one character inside a JSON string, HTML escaping on
(the default of `json.NewEncoder`): the quote and the backslash get a
backslash; control characters, `<`, `>` and `&` are written as `\u00XX`,
except for the short forms `\n`, `\r`, `\t` (and `\b`, `\f`); U+2028 and
U+2029 are written as `\u2028` and `\u2029`; anything else is itself. -/
def encodeChar (shortEscapes : Bool) (c : Char) : List Char :=
  if c.toNat < 0x80 then
    if 0x20 ≤ c.toNat ∧ c ≠ '"' ∧ c ≠ '\\' ∧ c ≠ '<' ∧ c ≠ '>' ∧ c ≠ '&' then [c]
    else if c = '\\' ∨ c = '"' then ['\\', c]
    else if c = Char.ofNat 8 ∧ shortEscapes = true then ['\\', 'b']
    else if c = Char.ofNat 12 ∧ shortEscapes = true then ['\\', 'f']
    else if c = '\n' then ['\\', 'n']
    else if c = '\r' then ['\\', 'r']
    else if c = '\t' then ['\\', 't']
    else ['\\', 'u', '0', '0', hexDigit (c.toNat / 16), hexDigit (c.toNat % 16)]
  else if c.toNat = 0x2028 ∨ c.toNat = 0x2029 then
    ['\\', 'u', '2', '0', '2', hexDigit (c.toNat % 16)]
  else [c]

/-- A Go string as a JSON string literal. -/
def encodeString (shortEscapes : Bool) (s : String) : String :=
  "\"" ++ String.mk (s.data.flatMap (encodeChar shortEscapes)) ++ "\""

/-- JSON text of an `ArtistInfo`: its two tagged fields in declaration
order. -/
def ArtistInfo.marshal (shortEscapes : Bool) (a : ArtistInfo) : String :=
  "\x7b\"name\":" ++ encodeString shortEscapes a.Name ++
    ",\"image_url\":" ++ encodeString shortEscapes a.ImageURL ++ "\x7d"

/-- JSON text of a `TrackInfo`: its three tagged fields in declaration
order, without insignificant white space. -/
def TrackInfo.marshal (shortEscapes : Bool) (t : TrackInfo) : String :=
  "\x7b\"name\":" ++ encodeString shortEscapes t.Name ++
    ",\"lyrics\":" ++ encodeString shortEscapes t.Lyrics ++
    ",\"artist\":" ++ t.Artist.marshal shortEscapes ++ "\x7d"

/-! ## `net/http` response writer -/

/-- The response as the handler builds it: header map, the status line once
it is written, and the bytes of the body. -/
structure ResponseWriter where
  header : List (String × String)
  status : Option Nat
  body : String
  deriving DecidableEq

/-- The writer handed to a handler: nothing set, nothing written. -/
def ResponseWriter.fresh : ResponseWriter := ⟨[], none, ""⟩

/-- Go `w.Header().Del(key)`. -/
def ResponseWriter.delHeader (w : ResponseWriter) (key : String) : ResponseWriter :=
  ⟨w.header.filter (fun kv => kv.1 != key), w.status, w.body⟩

/-- Go `w.Header().Set(key, value)`. -/
def ResponseWriter.setHeader (w : ResponseWriter) (key value : String) : ResponseWriter :=
  ⟨(key, value) :: w.header.filter (fun kv => kv.1 != key), w.status, w.body⟩

/-- Go `w.WriteHeader(code)`: the first status written stands. -/
def ResponseWriter.writeHeader (w : ResponseWriter) (code : Nat) : ResponseWriter :=
  match w.status with
  | some _ => w
  | none => ⟨w.header, some code, w.body⟩

/-- Go `w.Write(data)`: writes status 200 first if none was written. -/
def ResponseWriter.write (w : ResponseWriter) (data : String) : ResponseWriter :=
  ⟨(w.writeHeader 200).header, (w.writeHeader 200).status, w.body ++ data⟩

/-- Go `http.StatusInternalServerError`. -/
def StatusInternalServerError : Nat := 500

/-- Go `http.StatusNotFound`. -/
def StatusNotFound : Nat := 404

/-- Go `http.Error(w, error, code)`: plain-text headers, the status, then
`fmt.Fprintln(w, error)`, that is the message and a line feed. -/
def httpError (w : ResponseWriter) (error : String) (code : Nat) : ResponseWriter :=
  ((((w.delHeader "Content-Length").setHeader "Content-Type" "text/plain; charset=utf-8").setHeader
    "X-Content-Type-Options" "nosniff").writeHeader code).write (error ++ "\n")

/-- Go `json.NewEncoder(w).Encode(v)` for a `TrackInfo`: one write of the
JSON text followed by a line feed. -/
def encoderEncode (lib : JsonLib) (w : ResponseWriter) (v : TrackInfo) : ResponseWriter :=
  w.write (v.marshal lib.shortEscapes ++ "\n")

/-! ## The handler -/

/-- Go `fmt.Sprintf(format, args...)` for a format without any verb and
string operands: the format, then the operands it did not use, reported as
`%!(EXTRA string=a, string=b)`. -/
def sprintfNoVerbs (format : String) (args : List String) : String :=
  match args with
  | [] => format
  | _ => format ++ "%!(EXTRA " ++ ", ".intercalate (args.map (fun a => "string=" ++ a)) ++ ")"

/-- The inbound request as far as handlers can read it; `vars` is the
route-variable map `mux.Vars(r)`. -/
structure Request where
  method : String
  path : String
  header : List (String × String)
  vars : List (String × String)

/-- Go `mux.Vars(r)[key]`: the empty string when the key is missing. -/
def muxVar (r : Request) (key : String) : String := (r.vars.lookup key).getD ""

/-- What `gorequest.New().Get(url).End()` returned: the body and the error
slice (`none` is the nil slice; each error is given by its text). -/
structure Outcome where
  body : String
  errs : Option (List String)
  deriving DecidableEq

/-- What one run of the handler did: the response writer it left, the URLs
it requested in order, and whether it ended in a run-time panic (in which
case `net/http` closes the connection). -/
structure Run where
  w : ResponseWriter
  calls : List String
  panicked : Bool
  deriving DecidableEq

/-- The handler `GetTopTrackInfo` (src/main.go lines 44-136).  `getenv` is
`os.Getenv`; `top`, `lyrics` and `artist` are the outcomes of the first,
second and third outbound request, consumed only if that request is made. -/
def GetTopTrackInfo (lib : JsonLib) (getenv : String → String) (w : ResponseWriter)
    (r : Request) (top lyrics artist : Outcome) : Run :=
  let w := w.setHeader "Content-Type" "application/json"
  let region := muxVar r "region"
  let lastFMAPIKey := getenv "LASTFM_API_KEY"
  let musixmatchAPIKey := getenv "MUSIXMATCH_API_KEY"
  -- top track of the region
  let lastfmURL := sprintfNoVerbs "hereputurlviaaccount" [region, lastFMAPIKey]
  match top.errs with
  | some [] => ⟨w, [lastfmURL], true⟩
  | some (e :: _) => ⟨httpError w e StatusInternalServerError, [lastfmURL], false⟩
  | none =>
  match unmarshalTracks top.body with
  | none =>
    ⟨httpError w (lib.tracksErrorText top.body) StatusInternalServerError, [lastfmURL], false⟩
  | some tracksResp =>
  if tracksResp.TopTracks.Track.len = 0 then
    ⟨httpError w "No tracks found" StatusNotFound, [lastfmURL], false⟩
  else
  -- lyrics of the track
  match tracksResp.TopTracks.Track.index 0 with
  | none => ⟨w, [lastfmURL], true⟩
  | some track0 =>
  let trackName := track0.Name
  let artistName := track0.Artist.Name
  let musixmatchURL :=
    sprintfNoVerbs "hereputurlviaaccount" [trackName, artistName, musixmatchAPIKey]
  match lyrics.errs with
  | some [] => ⟨w, [lastfmURL, musixmatchURL], true⟩
  | some (e :: _) =>
    ⟨httpError w e StatusInternalServerError, [lastfmURL, musixmatchURL], false⟩
  | none =>
  match unmarshalLyrics lyrics.body with
  | none =>
    ⟨httpError w (lib.lyricsErrorText lyrics.body) StatusInternalServerError,
      [lastfmURL, musixmatchURL], false⟩
  | some lyricsResp =>
  -- artist details
  let artistInfoURL := sprintfNoVerbs "hereputurlviaaccount" [artistName, lastFMAPIKey]
  match artist.errs with
  | some [] => ⟨w, [lastfmURL, musixmatchURL, artistInfoURL], true⟩
  | some (e :: _) =>
    ⟨httpError w e StatusInternalServerError, [lastfmURL, musixmatchURL, artistInfoURL], false⟩
  | none =>
  match unmarshalArtist artist.body with
  | none =>
    ⟨httpError w (lib.artistErrorText artist.body) StatusInternalServerError,
      [lastfmURL, musixmatchURL, artistInfoURL], false⟩
  | some artistResp =>
  -- the response
  match artistResp.Artist.Image.index 3 with
  | none => ⟨w, [lastfmURL, musixmatchURL, artistInfoURL], true⟩
  | some image3 =>
  let response : TrackInfo :=
    ⟨trackName, lyricsResp.Message.Body.Lyrics.LyricsBody, ⟨artistName, image3.URL⟩⟩
  ⟨encoderEncode lib w response, [lastfmURL, musixmatchURL, artistInfoURL], false⟩

/-- One request served: the handler run on a fresh response writer. -/
def serve (lib : JsonLib) (getenv : String → String) (r : Request)
    (top lyrics artist : Outcome) : Run :=
  GetTopTrackInfo lib getenv ResponseWriter.fresh r top lyrics artist

/-! ## Names used in the statements -/

/-- URL of the first request (line 52). -/
def topTrackURL (getenv : String → String) (r : Request) : String :=
  sprintfNoVerbs "hereputurlviaaccount" [muxVar r "region", getenv "LASTFM_API_KEY"]

/-- URL of the second request (line 81) for the first track `t`. -/
def lyricsURL (getenv : String → String) (t : Track) : String :=
  sprintfNoVerbs "hereputurlviaaccount" [t.Name, t.Artist.Name, getenv "MUSIXMATCH_API_KEY"]

/-- URL of the third request (line 104) for the first track `t`. -/
def artistInfoURL (getenv : String → String) (t : Track) : String :=
  sprintfNoVerbs "hereputurlviaaccount" [t.Artist.Name, getenv "LASTFM_API_KEY"]

/-- The writer after line 45, before anything else happened. -/
def jsonWriter : ResponseWriter :=
  ResponseWriter.fresh.setHeader "Content-Type" "application/json"

/-- Whether a member name selects the only field `name` of a struct. -/
def selects (name key : String) : Bool := (fieldIndex [name] key).isSome

/-- The value gives nothing to the field at the end of a path of nested
single-field structs: it is `null`, or it is an object in which every member
selecting the first name of the path has a value that gives nothing along the
rest of the path.  At the end of the path only `null` gives nothing. -/
def lacksPath : List String → Json → Bool
  | [], Json.null => true
  | [], _ => false
  | _ :: _, Json.null => true
  | name :: path, Json.obj kvs => kvs.all (fun kv => !selects name kv.1 || lacksPath path kv.2)
  | _ :: _, _ => false

/-- The field path of `lyricsResp.Message.Body.Lyrics.LyricsBody`. -/
def lyricsPath : List String := ["message", "body", "lyrics", "lyrics_body"]

/-! ## Sample inputs -/

/-- A library instance with fixed error texts and the short escapes. -/
def sampleLib : JsonLib :=
  ⟨fun _ => "bad tracks", fun _ => "bad lyrics", fun _ => "bad artist", true⟩

/-- An environment holding the two API keys. -/
def sampleEnv (key : String) : String :=
  if key = "LASTFM_API_KEY" then "K1" else if key = "MUSIXMATCH_API_KEY" then "K2" else ""

/-- The request `GET /track/us`. -/
def sampleRequest : Request := ⟨"GET", "/track/us", [], [("region", "us")]⟩

/-- A top-track response with one track. -/
def sampleTop : Outcome :=
  ⟨"\x7b\"tracks\":\x7b\"track\":[\x7b\"name\":\"Song A\",\"artist\":\x7b\"name\":\"Artist X\"\x7d\x7d]\x7d\x7d",
    none⟩

/-- A lyrics response. -/
def sampleLyrics : Outcome :=
  ⟨"\x7b\"message\":\x7b\"body\":\x7b\"lyrics\":\x7b\"lyrics_body\":\"la la la\"\x7d\x7d\x7d\x7d", none⟩

/-- An artist-info response with four images; it spells the artist name
differently from the top-track response. -/
def sampleArtist : Outcome :=
  ⟨"\x7b\"artist\":\x7b\"name\":\"ARTIST X\",\"image\":[\x7b\"#text\":\"http://img/1.jpg\"\x7d,\x7b\"#text\":\"http://img/2.jpg\"\x7d,\x7b\"#text\":\"http://img/3.jpg\"\x7d,\x7b\"#text\":\"http://img/4.jpg\"\x7d]\x7d\x7d",
    none⟩

/-- The first track of `sampleTop`. -/
def sampleTrack : Track := ⟨"Song A", ⟨"Artist X"⟩⟩

/-- A top-track response without tracks. -/
def emptyTop : Outcome := ⟨"\x7b\"tracks\":\x7b\"track\":[]\x7d\x7d", none⟩

/-- A body that is not JSON. -/
def brokenBody : Outcome := ⟨"<html>", none⟩

/-- A request that failed in transport. -/
def failedFetch : Outcome := ⟨"", some ["boom"]⟩


/-- The images of `sampleArtist`. -/
def sampleImages : List Image :=
  [⟨"http://img/1.jpg"⟩, ⟨"http://img/2.jpg"⟩, ⟨"http://img/3.jpg"⟩, ⟨"http://img/4.jpg"⟩]


/-- An artist-info response with three images. -/
def threeImages : Outcome :=
  ⟨"\x7b\"artist\":\x7b\"name\":\"Artist X\",\"image\":[\x7b\"#text\":\"http://img/1.jpg\"\x7d,\x7b\"#text\":\"http://img/2.jpg\"\x7d,\x7b\"#text\":\"http://img/3.jpg\"\x7d]\x7d\x7d",
    none⟩

/-- An environment with the same two API keys as `sampleEnv` and a port. -/
def otherEnv (key : String) : String :=
  if key = "PORT" then "9090" else sampleEnv key

/-- Another request for region `us`: other header, other variables around
the region. -/
def otherRequest : Request :=
  ⟨"GET", "/track/us", [("Accept", "*/*")], [("format", "json"), ("region", "us")]⟩

/-- A lyrics response that is the empty object. -/
def emptyObject : Outcome := ⟨"\x7b\x7d", none⟩

/-- A lyrics response whose `message` is a number. -/
def numberMessage : Outcome := ⟨"\x7b\"message\":5\x7d", none⟩

/-- A lyrics response that is an empty array. -/
def emptyArray : Outcome := ⟨"[]", none⟩

/-- The body the end-to-end example of the specification expects. -/
def exampleBody : String :=
  "\x7b\"name\":\"Song A\",\"lyrics\":\"la la la\",\"artist\":\x7b\"name\":\"Artist X\",\"image_url\":\"http://img/4.jpg\"\x7d\x7d"

/-! ## The JSON scanner has fuel enough -/

theorem skipSpace_length_le (cs : List Char) : (skipSpace cs).length ≤ cs.length := by
  induction cs with
  | nil => simp [skipSpace]
  | cons c cs ih =>
    simp only [skipSpace]
    split
    · simp only [List.length_cons]; omega
    · simp

theorem getu4_length (cs : List Char) (n : Nat) (rest : List Char)
    (h : getu4 cs = some (n, rest)) : rest.length + 4 = cs.length := by
  match cs, h with
  | a :: b :: c :: d :: r, h =>
    simp only [getu4] at h
    split at h
    · simp only [Option.some.injEq, Prod.mk.injEq] at h
      simp [← h.2]
    · simp at h

theorem unicodeEscape_length_le (hi : Nat) (rest : List Char) :
    (unicodeEscape hi rest).2.length ≤ rest.length := by
  unfold unicodeEscape
  split
  · split
    · split
      · rename_i lo rest3 hg
        have := getu4_length _ _ _ hg
        simp only [List.length_drop] at this
        split
        · simp only; omega
        · simp
      · simp
    · simp
  · simp

theorem parseString_fuel (fuel : Nat) : ∀ (fuel2 : Nat) (cs acc : List Char),
    cs.length < fuel → cs.length < fuel2 → parseString fuel cs acc = parseString fuel2 cs acc := by
  induction fuel with
  | zero => intro fuel2 cs acc h; omega
  | succ f ih =>
    intro fuel2 cs acc h1 h2
    cases fuel2 with
    | zero => omega
    | succ f2 =>
      cases cs with
      | nil => simp [parseString]
      | cons c rest =>
        simp only [List.length_cons] at h1 h2
        simp only [parseString]
        split
        · rfl
        · split
          · cases rest with
            | nil => rfl
            | cons e r =>
              simp only [List.length_cons] at h1 h2
              simp only []
              split
              · cases hg : getu4 r with
                | none => rfl
                | some p =>
                  obtain ⟨hi, r2⟩ := p
                  have h3 := getu4_length _ _ _ hg
                  have h4 := unicodeEscape_length_le hi r2
                  simp only []
                  apply ih <;> omega
              · cases unescape e with
                | none => rfl
                | some x =>
                  simp only []
                  apply ih <;> omega
          · split
            · rfl
            · apply ih <;> omega

theorem parseString_length_lt (fuel : Nat) : ∀ (cs acc : List Char) (s : String)
    (rest : List Char), parseString fuel cs acc = some (s, rest) → rest.length < cs.length := by
  induction fuel with
  | zero => intro cs acc s rest h; simp [parseString] at h
  | succ f ih =>
    intro cs acc s rest h
    cases cs with
    | nil => simp [parseString] at h
    | cons c tl =>
      simp only [parseString] at h
      simp only [List.length_cons]
      split at h
      · simp only [Option.some.injEq, Prod.mk.injEq] at h
        rw [← h.2]; omega
      · split at h
        · cases tl with
          | nil => simp at h
          | cons e r =>
            simp only [List.length_cons]
            simp only [] at h
            split at h
            · cases hg : getu4 r with
              | none => simp [hg] at h
              | some p =>
                obtain ⟨hi, r2⟩ := p
                have h3 := getu4_length _ _ _ hg
                have h4 := unicodeEscape_length_le hi r2
                simp only [hg] at h
                have := ih _ _ _ _ h
                omega
            · cases hu : unescape e with
              | none => simp [hu] at h
              | some x =>
                simp only [hu] at h
                have := ih _ _ _ _ h
                omega
        · split at h
          · simp at h
          · have := ih _ _ _ _ h
            omega

theorem takeDigits_length (cs : List Char) :
    (takeDigits cs).2.length ≤ cs.length := by
  induction cs with
  | nil => simp [takeDigits]
  | cons c cs ih =>
    simp only [takeDigits]
    split
    · simp only [List.length_cons]; omega
    · simp

theorem parseInt_length (cs lit rest : List Char) (h : parseInt cs = some (lit, rest)) :
    rest.length < cs.length := by
  cases cs with
  | nil => simp [parseInt] at h
  | cons c tl =>
    simp only [parseInt] at h
    have := takeDigits_length tl
    split at h
    · simp only [Option.some.injEq, Prod.mk.injEq] at h
      rw [← h.2]; simp
    · split at h
      · simp only [Option.some.injEq, Prod.mk.injEq] at h
        rw [← h.2]; simp only [List.length_cons]; omega
      · simp at h

theorem parseFrac_length (cs lit rest : List Char) (h : parseFrac cs = some (lit, rest)) :
    rest.length ≤ cs.length := by
  unfold parseFrac at h
  split at h
  · rename_i tl
    have := takeDigits_length tl
    split at h
    · simp at h
    · rename_i ds r _ heq
      simp only [Option.some.injEq, Prod.mk.injEq] at h
      rw [heq] at this
      rw [← h.2]; simp only [List.length_cons]; simp only at this; omega
  · simp only [Option.some.injEq, Prod.mk.injEq] at h
    rw [← h.2]

theorem parseExp_length (cs lit rest : List Char) (h : parseExp cs = some (lit, rest)) :
    rest.length ≤ cs.length := by
  cases cs with
  | nil => simp [parseExp] at h; simp [← h.2]
  | cons c tl =>
    simp only [parseExp] at h
    split at h
    · cases tl with
      | nil => simp at h
      | cons s cs2 =>
        simp only [] at h
        split at h
        · have := takeDigits_length cs2
          split at h
          · simp at h
          · rename_i ds r _ heq
            simp only [Option.some.injEq, Prod.mk.injEq] at h
            rw [heq] at this
            rw [← h.2]; simp only [List.length_cons]; simp only at this; omega
        · have := takeDigits_length (s :: cs2)
          split at h
          · simp at h
          · rename_i ds r _ heq
            simp only [Option.some.injEq, Prod.mk.injEq] at h
            rw [heq] at this
            rw [← h.2]; simp only [List.length_cons] at this ⊢; omega
    · simp only [Option.some.injEq, Prod.mk.injEq] at h
      rw [← h.2]

theorem parseNumber_length (cs lit rest : List Char) (h : parseNumber cs = some (lit, rest)) :
    rest.length < cs.length := by
  unfold parseNumber at h
  split at h
  · simp at h
  · rename_i i r1 h1
    split at h
    · simp at h
    · rename_i f r2 h2
      split at h
      · simp at h
      · rename_i e r3 h3
        simp only [Option.some.injEq, Prod.mk.injEq] at h
        have := parseInt_length _ _ _ h1
        have := parseFrac_length _ _ _ h2
        have := parseExp_length _ _ _ h3
        rw [← h.2]; omega

theorem parseLiteral_length (cs : List Char) (v : Json) (rest : List Char)
    (h : parseLiteral cs = some (v, rest)) : rest.length < cs.length := by
  unfold parseLiteral at h
  split at h
  · rename_i ht
    have := congrArg List.length ht
    simp only [List.length_take, List.length_cons, List.length_nil] at this
    simp only [Option.some.injEq, Prod.mk.injEq] at h
    rw [← h.2, List.length_drop]; omega
  · split at h
    · rename_i ht
      have := congrArg List.length ht
      simp only [List.length_take, List.length_cons, List.length_nil] at this
      simp only [Option.some.injEq, Prod.mk.injEq] at h
      rw [← h.2, List.length_drop]; omega
    · split at h
      · rename_i ht
        have := congrArg List.length ht
        simp only [List.length_take, List.length_cons, List.length_nil] at this
        simp only [Option.some.injEq, Prod.mk.injEq] at h
        rw [← h.2, List.length_drop]; omega
      · simp at h


/-- With enough fuel for the text at hand the three scanners do not depend
on the fuel, and what they leave is shorter than what they were given. -/
theorem parse_fuel_aux (n : Nat) :
    (∀ fuel fuel2 depth cs, cs.length < n → 2 * cs.length + 1 ≤ fuel →
      2 * cs.length + 1 ≤ fuel2 →
      parseValue fuel depth cs = parseValue fuel2 depth cs ∧
      ∀ v rest, parseValue fuel depth cs = some (v, rest) → rest.length < cs.length) ∧
    (∀ fuel fuel2 depth cs, cs.length < n → 2 * cs.length + 2 ≤ fuel →
      2 * cs.length + 2 ≤ fuel2 →
      parseElements fuel depth cs = parseElements fuel2 depth cs ∧
      ∀ v rest, parseElements fuel depth cs = some (v, rest) → rest.length < cs.length) ∧
    (∀ fuel fuel2 depth cs, cs.length < n → 2 * cs.length + 2 ≤ fuel →
      2 * cs.length + 2 ≤ fuel2 →
      parseMembers fuel depth cs = parseMembers fuel2 depth cs ∧
      ∀ v rest, parseMembers fuel depth cs = some (v, rest) → rest.length < cs.length) := by
  induction n with
  | zero => exact ⟨fun _ _ _ _ h => absurd h (Nat.not_lt_zero _),
      fun _ _ _ _ h => absurd h (Nat.not_lt_zero _), fun _ _ _ _ h => absurd h (Nat.not_lt_zero _)⟩
  | succ n ih =>
    obtain ⟨ihv, ihe, ihm⟩ := ih
    have hv : ∀ fuel fuel2 depth cs, cs.length < n + 1 → 2 * cs.length + 1 ≤ fuel →
        2 * cs.length + 1 ≤ fuel2 →
        parseValue fuel depth cs = parseValue fuel2 depth cs ∧
        ∀ v rest, parseValue fuel depth cs = some (v, rest) → rest.length < cs.length := by
      intro fuel fuel2 depth cs hn h1 h2
      cases fuel with
      | zero => omega
      | succ f =>
      cases fuel2 with
      | zero => omega
      | succ f2 =>
      cases cs with
      | nil => simp [parseValue]
      | cons c rest =>
      simp only [List.length_cons] at hn h1 h2 ⊢
      have hsk := skipSpace_length_le rest
      by_cases hc1 : c = '\x7b'
      · simp only [parseValue, hc1, if_true]
        by_cases hd : depth + 1 ≤ maxNestingDepth
        · simp only [hd, if_true]
          cases hs : skipSpace rest with
          | nil => simp
          | cons c2 rest2 =>
            rw [hs] at hsk
            simp only [List.length_cons] at hsk
            by_cases hc2 : c2 = '\x7d'
            · simp only [hc2, if_true, Option.some.injEq, Prod.mk.injEq, true_and]
              intro v r hr
              rw [← hr.2]; omega
            · simp only [hc2, if_false]
              have hm := ihm f f2 (depth + 1) (c2 :: rest2)
                (by simp only [List.length_cons]; omega)
                (by simp only [List.length_cons]; omega)
                (by simp only [List.length_cons]; omega)
              refine ⟨by rw [hm.1], ?_⟩
              intro v r hr
              cases hp : parseMembers f (depth + 1) (c2 :: rest2) with
              | none => simp [hp] at hr
              | some p =>
                have := hm.2 p.1 p.2 hp
                simp only [hp, Option.map_some', Option.some.injEq, Prod.mk.injEq] at hr
                simp only [List.length_cons] at this
                rw [← hr.2]; omega
        · simp [hd]
      · by_cases hc3 : c = '['
        · simp only [parseValue, hc1, if_false, hc3, if_true]
          have hne : ¬ ('[' = '\x7b') := by decide
          simp only [hne, if_false]
          by_cases hd : depth + 1 ≤ maxNestingDepth
          · simp only [hd, if_true]
            cases hs : skipSpace rest with
            | nil => simp
            | cons c2 rest2 =>
              rw [hs] at hsk
              simp only [List.length_cons] at hsk
              by_cases hc2 : c2 = ']'
              · simp only [hc2, if_true, Option.some.injEq, Prod.mk.injEq, true_and]
                intro v r hr
                rw [← hr.2]; omega
              · simp only [hc2, if_false]
                have hm := ihe f f2 (depth + 1) (c2 :: rest2)
                  (by simp only [List.length_cons]; omega)
                  (by simp only [List.length_cons]; omega)
                  (by simp only [List.length_cons]; omega)
                refine ⟨by rw [hm.1], ?_⟩
                intro v r hr
                cases hp : parseElements f (depth + 1) (c2 :: rest2) with
                | none => simp [hp] at hr
                | some p =>
                  have := hm.2 p.1 p.2 hp
                  simp only [hp, Option.map_some', Option.some.injEq, Prod.mk.injEq] at hr
                  simp only [List.length_cons] at this
                  rw [← hr.2]; omega
          · simp [hd]
        · by_cases hc4 : c = '"'
          · simp only [parseValue, hc1, hc3, hc4, if_false, if_true, true_and]
            have hne1 : ¬ ('"' = '\x7b') := by decide
            have hne2 : ¬ ('"' = '[') := by decide
            simp only [hne1, hne2, if_false, true_and]
            intro v r hr
            cases hp : parseString (rest.length + 1) rest [] with
            | none => simp [hp] at hr
            | some p =>
              have := parseString_length_lt _ _ _ p.1 p.2 hp
              simp only [hp, Option.map_some', Option.some.injEq, Prod.mk.injEq] at hr
              rw [← hr.2]; omega
          · by_cases hc5 : c = '-'
            · simp only [parseValue, hc1, hc3, hc4, hc5, if_false, if_true, true_and]
              have hne1 : ¬ ('-' = '\x7b') := by decide
              have hne2 : ¬ ('-' = '[') := by decide
              have hne3 : ¬ ('-' = '"') := by decide
              simp only [hne1, hne2, hne3, if_false, true_and]
              intro v r hr
              cases hp : parseNumber rest with
              | none => simp [hp] at hr
              | some p =>
                have := parseNumber_length _ p.1 p.2 hp
                simp only [hp, Option.map_some', Option.some.injEq, Prod.mk.injEq] at hr
                rw [← hr.2]; omega
            · simp only [parseValue, hc1, hc3, hc4, hc5, if_false, true_and]
              intro v r hr
              cases hl : parseLiteral (c :: rest) with
              | some p =>
                have := parseLiteral_length _ p.1 p.2 hl
                simp only [hl, Option.some.injEq] at hr
                rw [hr] at this
                simpa using this
              | none =>
                simp only [hl] at hr
                cases hp : parseNumber (c :: rest) with
                | none => simp [hp] at hr
                | some p =>
                  have := parseNumber_length _ p.1 p.2 hp
                  simp only [hp, Option.map_some', Option.some.injEq, Prod.mk.injEq] at hr
                  rw [← hr.2]; simpa using this
    refine ⟨hv, ?_, ?_⟩
    · intro fuel fuel2 depth cs hn h1 h2
      cases fuel with
      | zero => omega
      | succ f =>
      cases fuel2 with
      | zero => omega
      | succ f2 =>
      have hval := hv f f2 depth cs hn (by omega) (by omega)
      simp only [parseElements, ← hval.1]
      cases hp : parseValue f depth cs with
      | none => simp
      | some p =>
        obtain ⟨v, rest⟩ := p
        have hlt := hval.2 v rest hp
        have hsk := skipSpace_length_le rest
        simp only []
        cases hs : skipSpace rest with
        | nil => simp
        | cons c rest2 =>
          rw [hs] at hsk
          simp only [List.length_cons] at hsk
          have hsk2 := skipSpace_length_le rest2
          simp only []
          by_cases hc : c = ','
          · simp only [hc, if_true]
            have he := ihe f f2 depth (skipSpace rest2) (by omega) (by omega) (by omega)
            refine ⟨by rw [he.1], ?_⟩
            intro vs r hr
            cases hq : parseElements f depth (skipSpace rest2) with
            | none => simp [hq] at hr
            | some q =>
              have := he.2 q.1 q.2 hq
              simp only [hq, Option.map_some', Option.some.injEq, Prod.mk.injEq] at hr
              rw [← hr.2]; omega
          · simp only [hc, if_false]
            by_cases hc2 : c = ']'
            · simp only [hc2, if_true, Option.some.injEq, Prod.mk.injEq, true_and]
              intro vs r hr
              rw [← hr.2]; omega
            · simp [hc2]
    · intro fuel fuel2 depth cs hn h1 h2
      cases fuel with
      | zero => omega
      | succ f =>
      cases fuel2 with
      | zero => omega
      | succ f2 =>
      cases cs with
      | nil => simp [parseMembers]
      | cons q rest =>
      simp only [List.length_cons] at hn h1 h2 ⊢
      by_cases hq : q = '"'
      · simp only [parseMembers, hq, if_true]
        cases hk : parseString (rest.length + 1) rest [] with
        | none => simp
        | some kp =>
          obtain ⟨key, rest2⟩ := kp
          have hk2 := parseString_length_lt _ _ _ _ _ hk
          have hsk2 := skipSpace_length_le rest2
          simp only []
          cases hs : skipSpace rest2 with
          | nil => simp
          | cons c rest3 =>
            rw [hs] at hsk2
            simp only [List.length_cons] at hsk2
            have hsk3 := skipSpace_length_le rest3
            simp only []
            by_cases hc : c = ':'
            · simp only [hc, if_true]
              have hval := ihv f f2 depth (skipSpace rest3) (by omega) (by omega) (by omega)
              simp only [← hval.1]
              cases hp : parseValue f depth (skipSpace rest3) with
              | none => simp
              | some p =>
                obtain ⟨v, rest4⟩ := p
                have hlt := hval.2 v rest4 hp
                have hsk4 := skipSpace_length_le rest4
                simp only []
                cases hs4 : skipSpace rest4 with
                | nil => simp
                | cons c2 rest5 =>
                  rw [hs4] at hsk4
                  simp only [List.length_cons] at hsk4
                  have hsk5 := skipSpace_length_le rest5
                  simp only []
                  by_cases hc2 : c2 = ','
                  · simp only [hc2, if_true]
                    have hm := ihm f f2 depth (skipSpace rest5) (by omega) (by omega) (by omega)
                    refine ⟨by rw [hm.1], ?_⟩
                    intro vs r hr
                    cases hq2 : parseMembers f depth (skipSpace rest5) with
                    | none => simp [hq2] at hr
                    | some q2 =>
                      have := hm.2 q2.1 q2.2 hq2
                      simp only [hq2, Option.map_some', Option.some.injEq, Prod.mk.injEq] at hr
                      rw [← hr.2]; omega
                  · simp only [hc2, if_false]
                    by_cases hc3 : c2 = '\x7d'
                    · simp only [hc3, if_true, Option.some.injEq, Prod.mk.injEq, true_and]
                      intro vs r hr
                      rw [← hr.2]; omega
                    · simp [hc3]
            · simp [hc]
      · simp [parseMembers, hq]

/-- The fuel `parseJson` gives the scanner is enough: any larger amount
gives the same result, so a `none` of `parseJson` is a syntax error of the
text and never a shortage of fuel. -/
theorem parseValue_fuel_enough (body : String) (extra : Nat) :
    parseValue (2 * body.length + 2 + extra) 0 (skipSpace body.data) =
      parseValue (2 * body.length + 2) 0 (skipSpace body.data) := by
  have hsk := skipSpace_length_le body.data
  have hlen : body.data.length = body.length := rfl
  exact ((parse_fuel_aux ((skipSpace body.data).length + 1)).1 _ _ 0 (skipSpace body.data)
    (by omega) (by omega) (by omega)).1

/-! ## The runs of the handler, case by case -/

/-- A slice longer than `i` has an element at index `i`. -/
theorem slice_index_of_lt {α : Type} (s : Slice α) (i : Nat) (h : i + 1 ≤ s.len) :
    ∃ a, s.index i = some a := by
  have hi : i < s.elems.length := h
  exact ⟨s.elems.get ⟨i, hi⟩, by simp [Slice.index, List.get?_eq_get hi]⟩



theorem httpError_jsonWriter_status (e : String) (code : Nat) :
    (httpError jsonWriter e code).status = some code := by
  simp [httpError, jsonWriter, ResponseWriter.fresh, ResponseWriter.write,
    ResponseWriter.writeHeader, ResponseWriter.setHeader, ResponseWriter.delHeader]

theorem httpError_jsonWriter_body (e : String) (code : Nat) :
    (httpError jsonWriter e code).body = e ++ "\n" := by
  simp [httpError, jsonWriter, ResponseWriter.fresh, ResponseWriter.write,
    ResponseWriter.writeHeader, ResponseWriter.setHeader, ResponseWriter.delHeader]

theorem encoderEncode_jsonWriter_status (lib : JsonLib) (t : TrackInfo) :
    (encoderEncode lib jsonWriter t).status = some 200 := by
  simp [encoderEncode, jsonWriter, ResponseWriter.fresh, ResponseWriter.write,
    ResponseWriter.writeHeader, ResponseWriter.setHeader]

theorem encoderEncode_jsonWriter_body (lib : JsonLib) (t : TrackInfo) :
    (encoderEncode lib jsonWriter t).body = t.marshal lib.shortEscapes ++ "\n" := by
  simp [encoderEncode, jsonWriter, ResponseWriter.fresh, ResponseWriter.write,
    ResponseWriter.writeHeader, ResponseWriter.setHeader]

/-- The first request fails in transport. -/
theorem serve_top_failed (lib : JsonLib) (getenv : String → String) (r : Request)
    (top lyrics artist : Outcome) (e : String) (es : List String)
    (h : top.errs = some (e :: es)) :
    serve lib getenv r top lyrics artist =
      ⟨httpError jsonWriter e StatusInternalServerError, [topTrackURL getenv r], false⟩ := by
  simp [serve, GetTopTrackInfo, h, topTrackURL, jsonWriter]

/-- The first body does not decode. -/
theorem serve_tracks_undecoded (lib : JsonLib) (getenv : String → String) (r : Request)
    (top lyrics artist : Outcome)
    (h1 : top.errs = none) (h2 : unmarshalTracks top.body = none) :
    serve lib getenv r top lyrics artist =
      ⟨httpError jsonWriter (lib.tracksErrorText top.body) StatusInternalServerError,
        [topTrackURL getenv r], false⟩ := by
  simp [serve, GetTopTrackInfo, h1, h2, topTrackURL, jsonWriter]

/-- The first body decodes to no track. -/
theorem serve_no_tracks (lib : JsonLib) (getenv : String → String) (r : Request)
    (top lyrics artist : Outcome) (tr : TracksResp)
    (h1 : top.errs = none) (h2 : unmarshalTracks top.body = some tr)
    (h3 : tr.TopTracks.Track.len = 0) :
    serve lib getenv r top lyrics artist =
      ⟨httpError jsonWriter "No tracks found" StatusNotFound, [topTrackURL getenv r], false⟩ := by
  simp [serve, GetTopTrackInfo, h1, h2, h3, topTrackURL, jsonWriter]

/-- A non-empty slice has an element at index 0. -/
theorem slice_index_zero {α : Type} (s : Slice α) (h : s.len ≠ 0) :
    ∃ a, s.index 0 = some a := by
  cases s with
  | mk elems spare =>
    cases elems with
    | nil => simp [Slice.len] at h
    | cons a as => exact ⟨a, by simp [Slice.index]⟩

/-- The second request fails in transport. -/
theorem serve_lyrics_failed (lib : JsonLib) (getenv : String → String) (r : Request)
    (top lyrics artist : Outcome) (tr : TracksResp) (t : Track) (e : String) (es : List String)
    (h1 : top.errs = none) (h2 : unmarshalTracks top.body = some tr)
    (h3 : tr.TopTracks.Track.len ≠ 0) (h4 : tr.TopTracks.Track.index 0 = some t)
    (h5 : lyrics.errs = some (e :: es)) :
    serve lib getenv r top lyrics artist =
      ⟨httpError jsonWriter e StatusInternalServerError,
        [topTrackURL getenv r, lyricsURL getenv t], false⟩ := by
  simp [serve, GetTopTrackInfo, h1, h2, h3, h4, h5, topTrackURL, lyricsURL, jsonWriter]

/-- The second body does not decode. -/
theorem serve_lyrics_undecoded (lib : JsonLib) (getenv : String → String) (r : Request)
    (top lyrics artist : Outcome) (tr : TracksResp) (t : Track)
    (h1 : top.errs = none) (h2 : unmarshalTracks top.body = some tr)
    (h3 : tr.TopTracks.Track.len ≠ 0) (h4 : tr.TopTracks.Track.index 0 = some t)
    (h5 : lyrics.errs = none) (h6 : unmarshalLyrics lyrics.body = none) :
    serve lib getenv r top lyrics artist =
      ⟨httpError jsonWriter (lib.lyricsErrorText lyrics.body) StatusInternalServerError,
        [topTrackURL getenv r, lyricsURL getenv t], false⟩ := by
  simp [serve, GetTopTrackInfo, h1, h2, h3, h4, h5, h6, topTrackURL, lyricsURL, jsonWriter]

/-- The third request fails in transport. -/
theorem serve_artist_failed (lib : JsonLib) (getenv : String → String) (r : Request)
    (top lyrics artist : Outcome) (tr : TracksResp) (t : Track) (lr : LyricsResp)
    (e : String) (es : List String)
    (h1 : top.errs = none) (h2 : unmarshalTracks top.body = some tr)
    (h3 : tr.TopTracks.Track.len ≠ 0) (h4 : tr.TopTracks.Track.index 0 = some t)
    (h5 : lyrics.errs = none) (h6 : unmarshalLyrics lyrics.body = some lr)
    (h7 : artist.errs = some (e :: es)) :
    serve lib getenv r top lyrics artist =
      ⟨httpError jsonWriter e StatusInternalServerError,
        [topTrackURL getenv r, lyricsURL getenv t, artistInfoURL getenv t], false⟩ := by
  simp [serve, GetTopTrackInfo, h1, h2, h3, h4, h5, h6, h7, topTrackURL, lyricsURL,
    artistInfoURL, jsonWriter]

/-- The third body does not decode. -/
theorem serve_artist_undecoded (lib : JsonLib) (getenv : String → String) (r : Request)
    (top lyrics artist : Outcome) (tr : TracksResp) (t : Track) (lr : LyricsResp)
    (h1 : top.errs = none) (h2 : unmarshalTracks top.body = some tr)
    (h3 : tr.TopTracks.Track.len ≠ 0) (h4 : tr.TopTracks.Track.index 0 = some t)
    (h5 : lyrics.errs = none) (h6 : unmarshalLyrics lyrics.body = some lr)
    (h7 : artist.errs = none) (h8 : unmarshalArtist artist.body = none) :
    serve lib getenv r top lyrics artist =
      ⟨httpError jsonWriter (lib.artistErrorText artist.body) StatusInternalServerError,
        [topTrackURL getenv r, lyricsURL getenv t, artistInfoURL getenv t], false⟩ := by
  simp [serve, GetTopTrackInfo, h1, h2, h3, h4, h5, h6, h7, h8, topTrackURL, lyricsURL,
    artistInfoURL, jsonWriter]

/-- All three bodies decode and the image list is too short for index 3. -/
theorem serve_image_missing (lib : JsonLib) (getenv : String → String) (r : Request)
    (top lyrics artist : Outcome) (tr : TracksResp) (t : Track) (lr : LyricsResp)
    (ar : ArtistResp)
    (h1 : top.errs = none) (h2 : unmarshalTracks top.body = some tr)
    (h3 : tr.TopTracks.Track.len ≠ 0) (h4 : tr.TopTracks.Track.index 0 = some t)
    (h5 : lyrics.errs = none) (h6 : unmarshalLyrics lyrics.body = some lr)
    (h7 : artist.errs = none) (h8 : unmarshalArtist artist.body = some ar)
    (h9 : ar.Artist.Image.index 3 = none) :
    serve lib getenv r top lyrics artist =
      ⟨jsonWriter, [topTrackURL getenv r, lyricsURL getenv t, artistInfoURL getenv t], true⟩ := by
  simp [serve, GetTopTrackInfo, h1, h2, h3, h4, h5, h6, h7, h8, h9, topTrackURL, lyricsURL,
    artistInfoURL, jsonWriter]

/-- All three bodies decode and the image list reaches index 3. -/
theorem serve_ok (lib : JsonLib) (getenv : String → String) (r : Request)
    (top lyrics artist : Outcome) (tr : TracksResp) (t : Track) (lr : LyricsResp)
    (ar : ArtistResp) (img : Image)
    (h1 : top.errs = none) (h2 : unmarshalTracks top.body = some tr)
    (h3 : tr.TopTracks.Track.len ≠ 0) (h4 : tr.TopTracks.Track.index 0 = some t)
    (h5 : lyrics.errs = none) (h6 : unmarshalLyrics lyrics.body = some lr)
    (h7 : artist.errs = none) (h8 : unmarshalArtist artist.body = some ar)
    (h9 : ar.Artist.Image.index 3 = some img) :
    serve lib getenv r top lyrics artist =
      ⟨encoderEncode lib jsonWriter
          ⟨t.Name, lr.Message.Body.Lyrics.LyricsBody, ⟨t.Artist.Name, img.URL⟩⟩,
        [topTrackURL getenv r, lyricsURL getenv t, artistInfoURL getenv t], false⟩ := by
  simp [serve, GetTopTrackInfo, h1, h2, h3, h4, h5, h6, h7, h8, h9, topTrackURL, lyricsURL,
    artistInfoURL, jsonWriter]



/-! ## Decoding values that lack a field -/

theorem decodeMembers_unchanged {σ : Type} (name : String)
    (setField : Nat → Json → σ → Option σ) (cur : σ) (kvs : List (String × Json))
    (h : ∀ kv ∈ kvs, selects name kv.1 = true → ∀ i, setField i kv.2 cur = some cur) :
    decodeMembers [name] setField kvs cur = some cur := by
  induction kvs with
  | nil => rfl
  | cons kv rest ih =>
    obtain ⟨key, v⟩ := kv
    have hrest : ∀ kv ∈ rest, selects name kv.1 = true → ∀ i, setField i kv.2 cur = some cur :=
      fun kv hkv => h kv (List.mem_cons_of_mem _ hkv)
    cases hf : fieldIndex [name] key with
    | none => simp [decodeMembers, hf, ih hrest]
    | some i =>
      have hsel : selects name key = true := by simp [selects, hf]
      have hset := h (key, v) (List.mem_cons_self _ _) hsel i
      simp only [decodeMembers, hf, hset, ih hrest]

theorem decodeStruct_unchanged {σ : Type} (name : String) (path : List String)
    (setField : Nat → Json → σ → Option σ) (cur : σ) (v : Json)
    (hset : ∀ i x, lacksPath path x = true → setField i x cur = some cur)
    (h : lacksPath (name :: path) v = true) :
    decodeStruct [name] setField v cur = some cur := by
  cases v with
  | null => rfl
  | obj kvs =>
    simp only [decodeStruct]
    apply decodeMembers_unchanged
    intro kv hkv hsel i
    apply hset
    simp only [lacksPath, List.all_eq_true] at h
    have := h kv hkv
    simpa [hsel] using this
  | bool b => simp [lacksPath] at h
  | num lit => simp [lacksPath] at h
  | str s => simp [lacksPath] at h
  | arr xs => simp [lacksPath] at h

theorem decodeString_unchanged (x : Json) (cur : String) (h : lacksPath [] x = true) :
    decodeString x cur = some cur := by
  cases x <;> simp [lacksPath] at h
  rfl

theorem lyricsT_decode_unchanged (v : Json) (cur : LyricsT)
    (h : lacksPath ["lyrics_body"] v = true) : LyricsT.decode v cur = some cur :=
  decodeStruct_unchanged "lyrics_body" [] _ cur v
    (fun _ x hx => by simp [decodeString_unchanged x _ hx]) h

theorem bodyT_decode_unchanged (v : Json) (cur : BodyT)
    (h : lacksPath ["lyrics", "lyrics_body"] v = true) : BodyT.decode v cur = some cur :=
  decodeStruct_unchanged "lyrics" ["lyrics_body"] _ cur v
    (fun _ x hx => by simp [lyricsT_decode_unchanged x _ hx]) h

theorem messageT_decode_unchanged (v : Json) (cur : MessageT)
    (h : lacksPath ["body", "lyrics", "lyrics_body"] v = true) :
    MessageT.decode v cur = some cur :=
  decodeStruct_unchanged "body" ["lyrics", "lyrics_body"] _ cur v
    (fun _ x hx => by simp [bodyT_decode_unchanged x _ hx]) h

theorem lyricsResp_decode_unchanged (v : Json) (cur : LyricsResp)
    (h : lacksPath lyricsPath v = true) : LyricsResp.decode v cur = some cur :=
  decodeStruct_unchanged "message" ["body", "lyrics", "lyrics_body"] _ cur v
    (fun _ x hx => by simp [messageT_decode_unchanged x _ hx]) h

/-- A lyrics body that gives nothing along the lyrics path decodes, to the
zero value. -/
theorem unmarshalLyrics_of_lacksPath (body : String) (v : Json)
    (hparse : parseJson body = some v) (h : lacksPath lyricsPath v = true) :
    unmarshalLyrics body = some LyricsResp.zero := by
  simp [unmarshalLyrics, hparse, lyricsResp_decode_unchanged v _ h]

/-- Once the lyrics body has decoded, the artist-info request is made. -/
theorem serve_calls_after_lyrics (lib : JsonLib) (getenv : String → String) (r : Request)
    (top lyrics artist : Outcome) (tr : TracksResp) (t : Track) (lr : LyricsResp)
    (h1 : top.errs = none) (h2 : unmarshalTracks top.body = some tr)
    (h3 : tr.TopTracks.Track.len ≠ 0) (h4 : tr.TopTracks.Track.index 0 = some t)
    (h5 : lyrics.errs = none) (h6 : unmarshalLyrics lyrics.body = some lr) :
    (serve lib getenv r top lyrics artist).calls =
      [topTrackURL getenv r, lyricsURL getenv t, artistInfoURL getenv t] := by
  cases h7 : artist.errs with
  | some es =>
    cases es with
    | nil =>
      simp [serve, GetTopTrackInfo, h1, h2, h3, h4, h5, h6, h7, topTrackURL, lyricsURL,
        artistInfoURL]
    | cons e es =>
      rw [serve_artist_failed lib getenv r top lyrics artist tr t lr e es h1 h2 h3 h4 h5 h6 h7]
  | none =>
    cases h8 : unmarshalArtist artist.body with
    | none =>
      rw [serve_artist_undecoded lib getenv r top lyrics artist tr t lr h1 h2 h3 h4 h5 h6 h7 h8]
    | some ar =>
      cases h9 : ar.Artist.Image.index 3 with
      | none =>
        rw [serve_image_missing lib getenv r top lyrics artist tr t lr ar h1 h2 h3 h4 h5 h6 h7
          h8 h9]
      | some img =>
        rw [serve_ok lib getenv r top lyrics artist tr t lr ar img h1 h2 h3 h4 h5 h6 h7 h8 h9]

/-- An indexable slice is not empty. -/
theorem slice_len_ne_zero_of_index {α : Type} (s : Slice α) (i : Nat) (a : α)
    (h : s.index i = some a) : s.len ≠ 0 := by
  cases s with
  | mk elems spare =>
    cases elems with
    | nil => simp [Slice.index] at h
    | cons b bs => simp [Slice.len]

/-- The encoding of the example `TrackInfo`, for either escape setting. -/
theorem marshal_example (shortEscapes : Bool) :
    TrackInfo.marshal shortEscapes
      ⟨"Song A", "la la la", ⟨"Artist X", "http://img/4.jpg"⟩⟩ = exampleBody := by
  cases shortEscapes <;> decide

set_option maxRecDepth 100000

/-! ## The claims -/

/-- C1: when the top-track fetch succeeds and its body decodes to an empty
(or absent) track list, the handler answers 404 and the only outbound call
is the top-track request: no lyrics and no artist-info request is made. -/
theorem C1_empty_track_list_is_404 (lib : JsonLib) (getenv : String → String) (r : Request)
    (top lyrics artist : Outcome) (tr : TracksResp)
    (hfetch : top.errs = none) (hdecode : unmarshalTracks top.body = some tr)
    (hempty : tr.TopTracks.Track.len = 0) :
    (serve lib getenv r top lyrics artist).w.status = some 404 ∧
    (serve lib getenv r top lyrics artist).calls = [topTrackURL getenv r] ∧
    (serve lib getenv r top lyrics artist).calls.length = 1 ∧
    (serve lib getenv r top lyrics artist).panicked = false := by
  rw [serve_no_tracks lib getenv r top lyrics artist tr hfetch hdecode hempty]
  simp [httpError_jsonWriter_status, StatusNotFound]

/-- Witness of C1: a top-track body with an empty track list. -/
theorem C1_witness :
    (serve sampleLib sampleEnv sampleRequest emptyTop sampleLyrics sampleArtist).w.status = some 404 ∧
    (serve sampleLib sampleEnv sampleRequest emptyTop sampleLyrics sampleArtist).calls =
      [topTrackURL sampleEnv sampleRequest] ∧
    (serve sampleLib sampleEnv sampleRequest emptyTop sampleLyrics sampleArtist).calls.length = 1 ∧
    (serve sampleLib sampleEnv sampleRequest emptyTop sampleLyrics sampleArtist).panicked = false :=
  C1_empty_track_list_is_404 sampleLib sampleEnv sampleRequest emptyTop sampleLyrics sampleArtist
    TracksResp.zero (by decide) (by decide) (by decide)

/-- C2: with three images in the artist-info response (all three fetches
succeed, all three bodies decode, the track list is not empty) the handler
does not answer 500: all three requests are made, the index expression
`artistResp.Artist.Image[3]` panics, and neither a status nor a body is
written. -/
theorem C2_three_images_panics :
    sampleTop.errs = none ∧ sampleLyrics.errs = none ∧ threeImages.errs = none ∧
    (unmarshalTracks sampleTop.body).map (fun t => t.TopTracks.Track.len) = some 1 ∧
    (unmarshalLyrics sampleLyrics.body).isSome = true ∧
    (unmarshalArtist threeImages.body).map (fun a => a.Artist.Image.len) = some 3 ∧
    (serve sampleLib sampleEnv sampleRequest sampleTop sampleLyrics threeImages).calls.length = 3 ∧
    (serve sampleLib sampleEnv sampleRequest sampleTop sampleLyrics threeImages).panicked = true ∧
    (serve sampleLib sampleEnv sampleRequest sampleTop sampleLyrics threeImages).w.status = none ∧
    (serve sampleLib sampleEnv sampleRequest sampleTop sampleLyrics threeImages).w.body = "" := by
  decide

/-- C3: when all three fetches succeed and decode, the track list is not
empty and the image list has at least 4 entries, the handler answers 200 and
writes the encoding of the `TrackInfo` made of the first track's name, the
decoded `message.body.lyrics.lyrics_body`, the first track's artist name
(from the top-track response) and the URL of the image at index 3. -/
theorem C3_success_composes_track_info (lib : JsonLib) (getenv : String → String)
    (r : Request) (top lyrics artist : Outcome) (tr : TracksResp) (lr : LyricsResp)
    (ar : ArtistResp)
    (h1 : top.errs = none) (h2 : unmarshalTracks top.body = some tr)
    (h3 : tr.TopTracks.Track.len ≠ 0)
    (h4 : lyrics.errs = none) (h5 : unmarshalLyrics lyrics.body = some lr)
    (h6 : artist.errs = none) (h7 : unmarshalArtist artist.body = some ar)
    (h8 : 4 ≤ ar.Artist.Image.len) :
    ∃ t img, tr.TopTracks.Track.index 0 = some t ∧ ar.Artist.Image.index 3 = some img ∧
      (serve lib getenv r top lyrics artist).w.status = some 200 ∧
      (serve lib getenv r top lyrics artist).w.body =
        TrackInfo.marshal lib.shortEscapes
          ⟨t.Name, lr.Message.Body.Lyrics.LyricsBody, ⟨t.Artist.Name, img.URL⟩⟩ ++ "\n" ∧
      (serve lib getenv r top lyrics artist).panicked = false := by
  obtain ⟨t, ht⟩ := slice_index_zero _ h3
  obtain ⟨img, himg⟩ := slice_index_of_lt ar.Artist.Image 3 h8
  refine ⟨t, img, ht, himg, ?_⟩
  rw [serve_ok lib getenv r top lyrics artist tr t lr ar img h1 h2 h3 ht h4 h5 h6 h7 himg]
  simp [encoderEncode_jsonWriter_status, encoderEncode_jsonWriter_body]

/-- Witness of C3: the three sample responses. -/
theorem C3_witness :
    ∃ t img, (Slice.mk [sampleTrack] []).index 0 = some t ∧
      (Slice.mk sampleImages []).index 3 = some img ∧
      (serve sampleLib sampleEnv sampleRequest sampleTop sampleLyrics sampleArtist).w.status =
        some 200 ∧
      (serve sampleLib sampleEnv sampleRequest sampleTop sampleLyrics sampleArtist).w.body =
        TrackInfo.marshal sampleLib.shortEscapes
          ⟨t.Name, "la la la", ⟨t.Artist.Name, img.URL⟩⟩ ++ "\n" ∧
      (serve sampleLib sampleEnv sampleRequest sampleTop sampleLyrics sampleArtist).panicked =
        false :=
  C3_success_composes_track_info sampleLib sampleEnv sampleRequest sampleTop sampleLyrics
    sampleArtist ⟨⟨⟨[sampleTrack], []⟩⟩⟩ ⟨⟨⟨⟨"la la la"⟩⟩⟩⟩ ⟨⟨"ARTIST X", ⟨sampleImages, []⟩⟩⟩
    (by decide) (by decide) (by decide) (by decide) (by decide) (by decide) (by decide)
    (by decide)

/-- C4: when the top-track fetch succeeds but its body does not decode, the
handler answers 500 and makes no outbound call after the first. -/
theorem C4_undecodable_top_tracks_is_500 (lib : JsonLib) (getenv : String → String)
    (r : Request) (top lyrics artist : Outcome)
    (hfetch : top.errs = none) (hdecode : unmarshalTracks top.body = none) :
    (serve lib getenv r top lyrics artist).w.status = some 500 ∧
    (serve lib getenv r top lyrics artist).calls = [topTrackURL getenv r] ∧
    (serve lib getenv r top lyrics artist).panicked = false := by
  rw [serve_tracks_undecoded lib getenv r top lyrics artist hfetch hdecode]
  simp [httpError_jsonWriter_status, StatusInternalServerError]

/-- Witness of C4: a top-track body that is not JSON. -/
theorem C4_witness :
    (serve sampleLib sampleEnv sampleRequest brokenBody sampleLyrics sampleArtist).w.status =
      some 500 ∧
    (serve sampleLib sampleEnv sampleRequest brokenBody sampleLyrics sampleArtist).calls =
      [topTrackURL sampleEnv sampleRequest] ∧
    (serve sampleLib sampleEnv sampleRequest brokenBody sampleLyrics sampleArtist).panicked =
      false :=
  C4_undecodable_top_tracks_is_500 sampleLib sampleEnv sampleRequest brokenBody sampleLyrics
    sampleArtist (by decide) (by decide)

/-- C5 as stated fails: after a transport error with text `boom` the body
is `boom` followed by a line feed, not `boom`. -/
theorem C5_counterexample :
    failedFetch.errs = some ["boom"] ∧
    (serve sampleLib sampleEnv sampleRequest failedFetch sampleLyrics sampleArtist).w.status =
      some 500 ∧
    (serve sampleLib sampleEnv sampleRequest failedFetch sampleLyrics sampleArtist).w.body =
      "boom\n" ∧
    (serve sampleLib sampleEnv sampleRequest failedFetch sampleLyrics sampleArtist).w.body ≠
      "boom" := by
  decide

/-- C5 (amended): at each of the three outbound steps, if the step is
reached and its request fails in transport with a non-empty error list, the
handler answers 500, the body is the text of the first error followed by a
line feed, and the calls made are those up to and including the failed one. -/
theorem C5_transport_failure_is_500 (lib : JsonLib) (getenv : String → String) (r : Request)
    (top lyrics artist : Outcome) :
    (∀ e es, top.errs = some (e :: es) →
      (serve lib getenv r top lyrics artist).w.status = some 500 ∧
      (serve lib getenv r top lyrics artist).w.body = e ++ "\n" ∧
      (serve lib getenv r top lyrics artist).calls = [topTrackURL getenv r]) ∧
    (∀ tr t e es, top.errs = none → unmarshalTracks top.body = some tr →
      tr.TopTracks.Track.len ≠ 0 → tr.TopTracks.Track.index 0 = some t →
      lyrics.errs = some (e :: es) →
      (serve lib getenv r top lyrics artist).w.status = some 500 ∧
      (serve lib getenv r top lyrics artist).w.body = e ++ "\n" ∧
      (serve lib getenv r top lyrics artist).calls = [topTrackURL getenv r, lyricsURL getenv t]) ∧
    (∀ tr t lr e es, top.errs = none → unmarshalTracks top.body = some tr →
      tr.TopTracks.Track.len ≠ 0 → tr.TopTracks.Track.index 0 = some t →
      lyrics.errs = none → unmarshalLyrics lyrics.body = some lr →
      artist.errs = some (e :: es) →
      (serve lib getenv r top lyrics artist).w.status = some 500 ∧
      (serve lib getenv r top lyrics artist).w.body = e ++ "\n" ∧
      (serve lib getenv r top lyrics artist).calls =
        [topTrackURL getenv r, lyricsURL getenv t, artistInfoURL getenv t]) := by
  refine ⟨?_, ?_, ?_⟩
  · intro e es h
    rw [serve_top_failed lib getenv r top lyrics artist e es h]
    simp [httpError_jsonWriter_status, httpError_jsonWriter_body, StatusInternalServerError]
  · intro tr t e es h1 h2 h3 h4 h5
    rw [serve_lyrics_failed lib getenv r top lyrics artist tr t e es h1 h2 h3 h4 h5]
    simp [httpError_jsonWriter_status, httpError_jsonWriter_body, StatusInternalServerError]
  · intro tr t lr e es h1 h2 h3 h4 h5 h6 h7
    rw [serve_artist_failed lib getenv r top lyrics artist tr t lr e es h1 h2 h3 h4 h5 h6 h7]
    simp [httpError_jsonWriter_status, httpError_jsonWriter_body, StatusInternalServerError]

/-- Witness of C5 (amended): a transport failure at the first, the second and the third step. -/
theorem C5_witness :
    ((serve sampleLib sampleEnv sampleRequest failedFetch sampleLyrics sampleArtist).w.status =
        some 500 ∧
      (serve sampleLib sampleEnv sampleRequest failedFetch sampleLyrics sampleArtist).w.body =
        "boom" ++ "\n" ∧
      (serve sampleLib sampleEnv sampleRequest failedFetch sampleLyrics sampleArtist).calls =
        [topTrackURL sampleEnv sampleRequest]) ∧
    ((serve sampleLib sampleEnv sampleRequest sampleTop failedFetch sampleArtist).w.status =
        some 500 ∧
      (serve sampleLib sampleEnv sampleRequest sampleTop failedFetch sampleArtist).w.body =
        "boom" ++ "\n" ∧
      (serve sampleLib sampleEnv sampleRequest sampleTop failedFetch sampleArtist).calls =
        [topTrackURL sampleEnv sampleRequest, lyricsURL sampleEnv sampleTrack]) ∧
    ((serve sampleLib sampleEnv sampleRequest sampleTop sampleLyrics failedFetch).w.status =
        some 500 ∧
      (serve sampleLib sampleEnv sampleRequest sampleTop sampleLyrics failedFetch).w.body =
        "boom" ++ "\n" ∧
      (serve sampleLib sampleEnv sampleRequest sampleTop sampleLyrics failedFetch).calls =
        [topTrackURL sampleEnv sampleRequest, lyricsURL sampleEnv sampleTrack,
          artistInfoURL sampleEnv sampleTrack]) :=
  ⟨(C5_transport_failure_is_500 sampleLib sampleEnv sampleRequest failedFetch sampleLyrics
      sampleArtist).1 "boom" [] (by decide),
    (C5_transport_failure_is_500 sampleLib sampleEnv sampleRequest sampleTop failedFetch
      sampleArtist).2.1 ⟨⟨⟨[sampleTrack], []⟩⟩⟩ sampleTrack "boom" [] (by decide) (by decide)
      (by decide) (by decide) (by decide),
    (C5_transport_failure_is_500 sampleLib sampleEnv sampleRequest sampleTop sampleLyrics
      failedFetch).2.2 ⟨⟨⟨[sampleTrack], []⟩⟩⟩ sampleTrack ⟨⟨⟨⟨"la la la"⟩⟩⟩⟩ "boom" []
      (by decide) (by decide) (by decide) (by decide) (by decide) (by decide) (by decide)⟩

/-- C6 as stated fails: the lyrics bodies `{"message":5}` and `[]` are
valid JSON and hold no `body`, `lyrics` or `lyrics_body` field, yet the
lyrics step fails with 500 and the artist-info request is not made. -/
theorem C6_counterexample :
    (parseJson numberMessage.body).isSome = true ∧
    (serve sampleLib sampleEnv sampleRequest sampleTop numberMessage sampleArtist).w.status =
      some 500 ∧
    (serve sampleLib sampleEnv sampleRequest sampleTop numberMessage sampleArtist).calls.length =
      2 ∧
    (parseJson emptyArray.body).isSome = true ∧
    (serve sampleLib sampleEnv sampleRequest sampleTop emptyArray sampleArtist).w.status =
      some 500 ∧
    (serve sampleLib sampleEnv sampleRequest sampleTop emptyArray sampleArtist).calls.length =
      2 := by
  decide

/-- C6 (amended): when the lyrics response is valid JSON that is `null` or
an object in which every member named `message`, then `body`, then `lyrics`
is again `null` or such an object, and no member `lyrics_body` with a value
other than `null` is reached (e.g. the body `{}`), the lyrics step does not
fail: it decodes to the zero value, the artist-info request is made, and when
that step succeeds with at least 4 images the answer is 200 with `lyrics`
equal to the empty string. -/
theorem C6_missing_lyrics_fields_give_empty_lyrics (lib : JsonLib)
    (getenv : String → String) (r : Request) (top lyrics artist : Outcome) (tr : TracksResp)
    (t : Track) (v : Json)
    (h1 : top.errs = none) (h2 : unmarshalTracks top.body = some tr)
    (h3 : tr.TopTracks.Track.index 0 = some t)
    (h4 : lyrics.errs = none) (h5 : parseJson lyrics.body = some v)
    (h6 : lacksPath lyricsPath v = true) :
    unmarshalLyrics lyrics.body = some LyricsResp.zero ∧
    (serve lib getenv r top lyrics artist).calls =
      [topTrackURL getenv r, lyricsURL getenv t, artistInfoURL getenv t] ∧
    (∀ ar, artist.errs = none → unmarshalArtist artist.body = some ar →
      4 ≤ ar.Artist.Image.len →
      ∃ img, ar.Artist.Image.index 3 = some img ∧
        (serve lib getenv r top lyrics artist).w.status = some 200 ∧
        (serve lib getenv r top lyrics artist).w.body =
          TrackInfo.marshal lib.shortEscapes ⟨t.Name, "", ⟨t.Artist.Name, img.URL⟩⟩ ++ "\n") := by
  have hl := unmarshalLyrics_of_lacksPath lyrics.body v h5 h6
  have hne := slice_len_ne_zero_of_index _ 0 t h3
  refine ⟨hl, serve_calls_after_lyrics lib getenv r top lyrics artist tr t _ h1 h2 hne h3 h4 hl,
    ?_⟩
  intro ar h7 h8 h9
  obtain ⟨img, himg⟩ := slice_index_of_lt ar.Artist.Image 3 h9
  refine ⟨img, himg, ?_⟩
  rw [serve_ok lib getenv r top lyrics artist tr t _ ar img h1 h2 hne h3 h4 hl h7 h8 himg]
  simp [encoderEncode_jsonWriter_status, encoderEncode_jsonWriter_body, LyricsResp.zero]

/-- Witness of C6 (amended): the lyrics body is the empty object. -/
theorem C6_witness :
    unmarshalLyrics emptyObject.body = some LyricsResp.zero ∧
    (serve sampleLib sampleEnv sampleRequest sampleTop emptyObject sampleArtist).calls =
      [topTrackURL sampleEnv sampleRequest, lyricsURL sampleEnv sampleTrack,
        artistInfoURL sampleEnv sampleTrack] ∧
    (∃ img, (Slice.mk sampleImages []).index 3 = some img ∧
      (serve sampleLib sampleEnv sampleRequest sampleTop emptyObject sampleArtist).w.status =
        some 200 ∧
      (serve sampleLib sampleEnv sampleRequest sampleTop emptyObject sampleArtist).w.body =
        TrackInfo.marshal sampleLib.shortEscapes
          ⟨sampleTrack.Name, "", ⟨sampleTrack.Artist.Name, img.URL⟩⟩ ++ "\n") :=
  have h := C6_missing_lyrics_fields_give_empty_lyrics sampleLib sampleEnv sampleRequest
    sampleTop emptyObject sampleArtist ⟨⟨⟨[sampleTrack], []⟩⟩⟩ sampleTrack (Json.obj [])
    (by decide) (by decide) (by decide) (by decide) (by rfl) (by decide)
  ⟨h.1, h.2.1, h.2.2 ⟨⟨"ARTIST X", ⟨sampleImages, []⟩⟩⟩ (by decide) (by decide) (by decide)⟩

/-- C7 as stated fails: on the end-to-end example the body written is the
expected JSON text followed by a line feed, so it is not exactly that text. -/
theorem C7_counterexample :
    (serve sampleLib sampleEnv sampleRequest sampleTop sampleLyrics sampleArtist).w.body =
      exampleBody ++ "\n" ∧
    (serve sampleLib sampleEnv sampleRequest sampleTop sampleLyrics sampleArtist).w.body ≠
      exampleBody := by
  decide

/-- C7 (amended): when the first track of the top-track response is
`Song A` by `Artist X`, the lyrics response carries `la la la` and the
artist-info response has the URL `http://img/4.jpg` at index 3, the answer
is 200 and its body is exactly the JSON text of the example, fields in that
order, followed by one line feed. -/
theorem C7_example_body_with_line_feed (lib : JsonLib) (getenv : String → String)
    (r : Request) (top lyrics artist : Outcome) (tr : TracksResp) (lr : LyricsResp)
    (ar : ArtistResp)
    (h1 : top.errs = none) (h2 : unmarshalTracks top.body = some tr)
    (h3 : tr.TopTracks.Track.index 0 = some ⟨"Song A", ⟨"Artist X"⟩⟩)
    (h4 : lyrics.errs = none) (h5 : unmarshalLyrics lyrics.body = some lr)
    (h6 : lr.Message.Body.Lyrics.LyricsBody = "la la la")
    (h7 : artist.errs = none) (h8 : unmarshalArtist artist.body = some ar)
    (h9 : ar.Artist.Image.index 3 = some ⟨"http://img/4.jpg"⟩) :
    (serve lib getenv r top lyrics artist).w.status = some 200 ∧
    (serve lib getenv r top lyrics artist).w.body = exampleBody ++ "\n" := by
  have hne := slice_len_ne_zero_of_index _ 0 _ h3
  rw [serve_ok lib getenv r top lyrics artist tr _ lr ar _ h1 h2 hne h3 h4 h5 h7 h8 h9]
  simp [encoderEncode_jsonWriter_status, encoderEncode_jsonWriter_body, h6, marshal_example]

/-- Witness of C7 (amended): the three sample responses. -/
theorem C7_witness :
    (serve sampleLib sampleEnv sampleRequest sampleTop sampleLyrics sampleArtist).w.status =
      some 200 ∧
    (serve sampleLib sampleEnv sampleRequest sampleTop sampleLyrics sampleArtist).w.body =
      exampleBody ++ "\n" :=
  C7_example_body_with_line_feed sampleLib sampleEnv sampleRequest sampleTop sampleLyrics
    sampleArtist ⟨⟨⟨[sampleTrack], []⟩⟩⟩ ⟨⟨⟨⟨"la la la"⟩⟩⟩⟩ ⟨⟨"ARTIST X", ⟨sampleImages, []⟩⟩⟩
    (by decide) (by decide) (by decide) (by decide) (by decide) (by decide) (by decide)
    (by decide) (by decide)

/-- C8: with the first step done (first track `t`) and the lyrics fetch
successful, a lyrics body that does not decode gives 500 and the artist-info
request is never issued; a lyrics body that decodes followed by a successful
artist-info fetch whose body does not decode gives 500 with a body that is
the decode error line only, so no `TrackInfo` is written. -/
theorem C8_decode_failures_are_500 (lib : JsonLib) (getenv : String → String) (r : Request)
    (top lyrics artist : Outcome) (tr : TracksResp) (t : Track)
    (h1 : top.errs = none) (h2 : unmarshalTracks top.body = some tr)
    (h3 : tr.TopTracks.Track.len ≠ 0) (h4 : tr.TopTracks.Track.index 0 = some t)
    (h5 : lyrics.errs = none) :
    (unmarshalLyrics lyrics.body = none →
      (serve lib getenv r top lyrics artist).w.status = some 500 ∧
      (serve lib getenv r top lyrics artist).calls = [topTrackURL getenv r, lyricsURL getenv t] ∧
      (serve lib getenv r top lyrics artist).calls.length = 2) ∧
    (∀ lr, unmarshalLyrics lyrics.body = some lr → artist.errs = none →
      unmarshalArtist artist.body = none →
      (serve lib getenv r top lyrics artist).w.status = some 500 ∧
      (serve lib getenv r top lyrics artist).w.body = lib.artistErrorText artist.body ++ "\n" ∧
      (serve lib getenv r top lyrics artist).calls =
        [topTrackURL getenv r, lyricsURL getenv t, artistInfoURL getenv t]) := by
  refine ⟨?_, ?_⟩
  · intro h6
    rw [serve_lyrics_undecoded lib getenv r top lyrics artist tr t h1 h2 h3 h4 h5 h6]
    simp [httpError_jsonWriter_status, StatusInternalServerError]
  · intro lr h6 h7 h8
    rw [serve_artist_undecoded lib getenv r top lyrics artist tr t lr h1 h2 h3 h4 h5 h6 h7 h8]
    simp [httpError_jsonWriter_status, httpError_jsonWriter_body, StatusInternalServerError]

/-- Witness of C8: a broken lyrics body, and a broken artist-info body. -/
theorem C8_witness :
    ((serve sampleLib sampleEnv sampleRequest sampleTop brokenBody sampleArtist).w.status =
        some 500 ∧
      (serve sampleLib sampleEnv sampleRequest sampleTop brokenBody sampleArtist).calls =
        [topTrackURL sampleEnv sampleRequest, lyricsURL sampleEnv sampleTrack] ∧
      (serve sampleLib sampleEnv sampleRequest sampleTop brokenBody sampleArtist).calls.length =
        2) ∧
    ((serve sampleLib sampleEnv sampleRequest sampleTop sampleLyrics brokenBody).w.status =
        some 500 ∧
      (serve sampleLib sampleEnv sampleRequest sampleTop sampleLyrics brokenBody).w.body =
        sampleLib.artistErrorText brokenBody.body ++ "\n" ∧
      (serve sampleLib sampleEnv sampleRequest sampleTop sampleLyrics brokenBody).calls =
        [topTrackURL sampleEnv sampleRequest, lyricsURL sampleEnv sampleTrack,
          artistInfoURL sampleEnv sampleTrack]) :=
  ⟨(C8_decode_failures_are_500 sampleLib sampleEnv sampleRequest sampleTop brokenBody
      sampleArtist ⟨⟨⟨[sampleTrack], []⟩⟩⟩ sampleTrack (by decide) (by decide) (by decide)
      (by decide) (by decide)).1 (by decide),
    (C8_decode_failures_are_500 sampleLib sampleEnv sampleRequest sampleTop sampleLyrics
      brokenBody ⟨⟨⟨[sampleTrack], []⟩⟩⟩ sampleTrack (by decide) (by decide) (by decide)
      (by decide) (by decide)).2 ⟨⟨⟨⟨"la la la"⟩⟩⟩⟩ (by decide) (by decide) (by decide)⟩

/-- C9: the whole run (status, headers, body, outbound calls, panic or not)
is the same for any two requests and process environments that agree on the
region, on the two API keys and on the three upstream outcomes; in
particular a repeated request with identical upstream responses gives the
same status and a byte-identical body. -/
theorem C9_run_determined_by_region_keys_upstreams (lib : JsonLib)
    (getenv getenv2 : String → String) (r r2 : Request) (top lyrics artist : Outcome)
    (hregion : muxVar r "region" = muxVar r2 "region")
    (hlastfm : getenv "LASTFM_API_KEY" = getenv2 "LASTFM_API_KEY")
    (hmusix : getenv "MUSIXMATCH_API_KEY" = getenv2 "MUSIXMATCH_API_KEY") :
    serve lib getenv r top lyrics artist = serve lib getenv2 r2 top lyrics artist := by
  simp only [serve, GetTopTrackInfo, hregion, hlastfm, hmusix]

/-- Witness of C9: two environments and two requests that agree on region and keys. -/
theorem C9_witness :
    serve sampleLib sampleEnv sampleRequest sampleTop sampleLyrics sampleArtist =
      serve sampleLib otherEnv otherRequest sampleTop sampleLyrics sampleArtist :=
  C9_run_determined_by_region_keys_upstreams sampleLib sampleEnv otherEnv sampleRequest
    otherRequest sampleTop sampleLyrics sampleArtist (by decide) (by decide) (by decide)

/-- C10 as stated fails: the body of the 404 answer is `No tracks found`
followed by a line feed, not the bare text. -/
theorem C10_counterexample :
    (serve sampleLib sampleEnv sampleRequest emptyTop sampleLyrics sampleArtist).w.status =
      some 404 ∧
    (serve sampleLib sampleEnv sampleRequest emptyTop sampleLyrics sampleArtist).w.body =
      "No tracks found\n" ∧
    (serve sampleLib sampleEnv sampleRequest emptyTop sampleLyrics sampleArtist).w.body ≠
      "No tracks found" := by
  decide

/-- C10 (amended): the status is 404 exactly when the top-track fetch
succeeded, its body decoded and the decoded track list has length 0; a 404
answer is given before any lyrics or artist-info request is made, so no
failure of those steps gives 404; and the body of a 404 answer is the text
`No tracks found` followed by a line feed. -/
theorem C10_status_404_iff_no_tracks (lib : JsonLib) (getenv : String → String) (r : Request)
    (top lyrics artist : Outcome) :
    ((serve lib getenv r top lyrics artist).w.status = some 404 ↔
      (top.errs = none ∧ ∃ tr, unmarshalTracks top.body = some tr ∧
        tr.TopTracks.Track.len = 0)) ∧
    ((serve lib getenv r top lyrics artist).w.status = some 404 →
      (serve lib getenv r top lyrics artist).calls.length = 1 ∧
      (serve lib getenv r top lyrics artist).w.body = "No tracks found\n") := by
  cases h1 : top.errs with
  | some es =>
    cases es with
    | nil => simp [serve, GetTopTrackInfo, h1, ResponseWriter.setHeader, ResponseWriter.fresh]
    | cons e es =>
      rw [serve_top_failed lib getenv r top lyrics artist e es h1]
      simp [httpError_jsonWriter_status, StatusInternalServerError]
  | none =>
    cases h2 : unmarshalTracks top.body with
    | none =>
      rw [serve_tracks_undecoded lib getenv r top lyrics artist h1 h2]
      simp [httpError_jsonWriter_status, StatusInternalServerError]
    | some tr =>
      by_cases h3 : tr.TopTracks.Track.len = 0
      · rw [serve_no_tracks lib getenv r top lyrics artist tr h1 h2 h3]
        simp [httpError_jsonWriter_status, httpError_jsonWriter_body, StatusNotFound, h3]
      · obtain ⟨t, h4⟩ := slice_index_zero _ h3
        cases h5 : lyrics.errs with
        | some es =>
          cases es with
          | nil =>
            simp [serve, GetTopTrackInfo, h1, h2, h3, h4, h5, ResponseWriter.setHeader,
              ResponseWriter.fresh]
          | cons e es =>
            rw [serve_lyrics_failed lib getenv r top lyrics artist tr t e es h1 h2 h3 h4 h5]
            simp [httpError_jsonWriter_status, StatusInternalServerError, h3]
        | none =>
          cases h6 : unmarshalLyrics lyrics.body with
          | none =>
            rw [serve_lyrics_undecoded lib getenv r top lyrics artist tr t h1 h2 h3 h4 h5 h6]
            simp [httpError_jsonWriter_status, StatusInternalServerError, h3]
          | some lr =>
            cases h7 : artist.errs with
            | some es =>
              cases es with
              | nil =>
                simp [serve, GetTopTrackInfo, h1, h2, h3, h4, h5, h6, h7,
                  ResponseWriter.setHeader, ResponseWriter.fresh]
              | cons e es =>
                rw [serve_artist_failed lib getenv r top lyrics artist tr t lr e es h1 h2 h3 h4
                  h5 h6 h7]
                simp [httpError_jsonWriter_status, StatusInternalServerError, h3]
            | none =>
              cases h8 : unmarshalArtist artist.body with
              | none =>
                rw [serve_artist_undecoded lib getenv r top lyrics artist tr t lr h1 h2 h3 h4
                  h5 h6 h7 h8]
                simp [httpError_jsonWriter_status, StatusInternalServerError, h3]
              | some ar =>
                cases h9 : ar.Artist.Image.index 3 with
                | none =>
                  rw [serve_image_missing lib getenv r top lyrics artist tr t lr ar h1 h2 h3 h4
                    h5 h6 h7 h8 h9]
                  simp [jsonWriter, ResponseWriter.setHeader, ResponseWriter.fresh, h3]
                | some img =>
                  rw [serve_ok lib getenv r top lyrics artist tr t lr ar img h1 h2 h3 h4 h5 h6
                    h7 h8 h9]
                  simp [encoderEncode_jsonWriter_status, h3]

end TrackInfoAggregator
